import Mathlib

set_option maxRecDepth 2000

/-!
Verification development for the RvtoolsSALT backend core: the DR
replica-matching engine (backend/routes/dr.py), the hierarchy aggregator
(backend/routes/hosts.py), the right-sizing finding catalog and its
severity/ranking stage (backend/app.py, api_rightsizing), and the
table-access / modular-check layer (backend/utils/db.py,
backend/routes/optimization.py).

Conventions of the shallow embedding:
* pandas numeric cells are modelled as rationals (ℚ); the Python code runs
  on IEEE floats, so all statements about arithmetic are exact-arithmetic
  statements about the same formulas.
* Python `round(x, n)` is modelled as exact round-half-to-even at `n`
  decimal digits (`pyRound`), `int(x)` as truncation toward zero
  (`pyTrunc`).
* Python strings are modelled as Lean `String`; `s.lower()`, `p in s` and
  `s.replace(p, '')` are implemented structurally on the character list so
  that the kernel can evaluate them (`pyLower`, `pyContains`, `pyReplace`).
* pandas DataFrames are modelled as lists of typed rows (one structure per
  sheet, holding exactly the columns the embedded code reads); dicts are
  association lists.  Display-only free-text fields (`reason`,
  `current_value`, `recommended_value`) of finding records are omitted.
-/

/-! ## Python-primitive helpers -/

/-- Checks whether `p` is a prefix of `s` (on character lists). -/
def charsPrefix : List Char → List Char → Bool
  | [], _ => true
  | _ :: _, [] => false
  | c :: ps, d :: ss => c == d && charsPrefix ps ss

/-- Python `p in s` substring test, on character lists. -/
def charsContains (p : List Char) : List Char → Bool
  | [] => p.isEmpty
  | d :: rest => charsPrefix p (d :: rest) || charsContains p rest

/-- Python `s.replace(p, '')`: remove every non-overlapping occurrence of
`p`, scanning left to right.  `fuel` bounds the recursion (callers pass the
length of `s`, which suffices because each step consumes at least one
character). -/
def charsReplace (p : List Char) : ℕ → List Char → List Char
  | _, [] => []
  | 0, s => s
  | fuel + 1, c :: rest =>
    if !p.isEmpty && charsPrefix p (c :: rest) then
      charsReplace p fuel (rest.drop (p.length - 1))
    else
      c :: charsReplace p fuel rest

/-- Python `s.lower()` (ASCII, which covers the inventory names involved). -/
def pyLower (s : String) : String := ⟨s.data.map Char.toLower⟩

/-- Python `s.upper()` (ASCII). -/
def pyUpper (s : String) : String := ⟨s.data.map Char.toUpper⟩

/-- Python `p in s` substring containment. -/
def pyContains (s p : String) : Bool := charsContains p.data s.data

/-- Python `s.replace(p, '')`. -/
def pyReplace (s p : String) : String := ⟨charsReplace p.data s.data.length s.data⟩

/-- Python `int(x)`: truncation of a rational toward zero. -/
def pyTrunc (q : ℚ) : ℤ := if q < 0 then ⌈q⌉ else ⌊q⌋

/-- Python `round(x, n)`: round-half-to-even at `n` decimal digits, in exact
rational arithmetic. -/
def pyRound (n : ℕ) (q : ℚ) : ℚ :=
  let m : ℚ := (10 : ℚ) ^ n
  let y := q * m
  let fl : ℤ := ⌊y⌋
  let fr : ℚ := y - fl
  let r : ℤ :=
    if fr < 1 / 2 then fl
    else if fr > 1 / 2 then fl + 1
    else if fl % 2 = 0 then fl else fl + 1
  (r : ℚ) / m

/-- Sum of a list of rationals (pandas `Series.sum`). -/
def qsum (l : List ℚ) : ℚ := l.foldr (· + ·) 0

/-- Arithmetic mean of a list of rationals (pandas `Series.mean`); the
callers embedded below only apply it to nonempty lists. -/
def qmean (l : List ℚ) : ℚ := qsum l / l.length

/-- First value stored under a key in an association list (Python dict /
DataFrame lookup). -/
def getA {α : Type} (l : List (String × α)) (k : String) : Option α :=
  (l.find? (fun e => e.1 == k)).map (fun e => e.2)

/-! ## backend/routes/dr.py — DR pairing engine -/

/-- One row of the vInfo sheet as selected by `api_dr_analysis`
(`SELECT VM, Powerstate, CPUs, Memory, "Total disk capacity MiB" as
DiskMiB, Host, Cluster, Datacenter, Source, "OS according to the
configuration file" as OS FROM vInfo`), after the `pd.to_numeric(...).
fillna(0)` cleaning of the numeric columns. -/
structure VmRow where
  VM : String
  Powerstate : String
  CPUs : ℚ
  Memory : ℚ
  DiskMiB : ℚ
  Host : String
  Cluster : String
  Datacenter : String
  Source : String
  OS : String
deriving DecidableEq, Repr

/-- dr.py: `REPLICA_PATTERNS`. -/
def REPLICA_PATTERNS : List String :=
  ["_dr", "_replica", "_rep", "-dr", "-replica", "-rep", "_backup", "-backup"]

/-- The loop body of `get_base_name`: scan the pattern list in order and
remove every occurrence of the first pattern found in the name. -/
def stripFirstPattern : List String → String → String
  | [], name => name
  | p :: rest, name =>
    if pyContains name p then pyReplace name p else stripFirstPattern rest name

/-- dr.py: `get_base_name` — lowercase the VM name, then strip the first
matching replica pattern. -/
def get_base_name (vm_name : String) : String :=
  stripFirstPattern REPLICA_PATTERNS (pyLower vm_name)

/-- dr.py: the dictionary produced by `create_pair_dict` (a matched
production/replica pair). -/
structure Pair where
  production_vm : String
  production_dc : String
  production_cluster : String
  production_host : String
  replica_vm : String
  replica_dc : String
  replica_cluster : String
  replica_host : String
  vcpu : ℤ
  memory_gb : ℚ
  disk_gb : ℚ
  os : String
  source : String
deriving DecidableEq, Repr

/-- dr.py: `create_pair_dict(prod, replica)`. -/
def create_pair_dict (prod replica : VmRow) : Pair :=
  { production_vm := prod.VM
    production_dc := prod.Datacenter
    production_cluster := prod.Cluster
    production_host := prod.Host
    replica_vm := replica.VM
    replica_dc := replica.Datacenter
    replica_cluster := replica.Cluster
    replica_host := replica.Host
    vcpu := pyTrunc prod.CPUs
    memory_gb := pyRound 2 (prod.Memory / 1024)
    disk_gb := pyRound 2 (prod.DiskMiB / 1024)
    os := prod.OS
    source := prod.Source }

/-- dr.py: the dictionary appended to `unmatched_replicas`. -/
structure UnmatchedReplica where
  vm : String
  datacenter : String
  cluster : String
  vcpu : ℤ
  memory_gb : ℚ
  disk_gb : ℚ
deriving DecidableEq, Repr

/-- dr.py: the unmatched-replica record built inside `match_replicas`. -/
def mkUnmatched (replica : VmRow) : UnmatchedReplica :=
  { vm := replica.VM
    datacenter := replica.Datacenter
    cluster := replica.Cluster
    vcpu := pyTrunc replica.CPUs
    memory_gb := pyRound 2 (replica.Memory / 1024)
    disk_gb := pyRound 2 (replica.DiskMiB / 1024) }

/-- dr.py: `any(p in replica['VM'].lower() for p in REPLICA_PATTERNS)`. -/
def hasReplicaPattern (name : String) : Bool :=
  REPLICA_PATTERNS.any (fun p => pyContains (pyLower name) p)

/-- Outcome of one iteration of the `match_replicas` loop for a single
replica candidate. -/
inductive MatchOutcome where
  | pair (p : Pair)
  | orphan (u : UnmatchedReplica)
  | skip
deriving DecidableEq, Repr

/-- The second half of the `match_replicas` loop body: the exact-name
(case-insensitive, different-datacenter) fallback lookup, and the orphaned
replica case when the candidate's name still carries a replica pattern. -/
def matchFallback (prods : List VmRow) (replica : VmRow) : MatchOutcome :=
  match prods.find? (fun p =>
      pyLower p.VM == pyLower replica.VM && p.Datacenter != replica.Datacenter) with
  | some p => .pair (create_pair_dict p replica)
  | none =>
    if hasReplicaPattern replica.VM then .orphan (mkUnmatched replica) else .skip

/-- The body of the `match_replicas` loop for one replica candidate:
base-name lookup in the production table (`groupby('BaseName').first()`
keeps the first production row per base name, modelled by `find?`), the
different-datacenter guard, then the fallback. -/
def matchOne (prods : List VmRow) (replica : VmRow) : MatchOutcome :=
  match prods.find? (fun p => get_base_name p.VM == get_base_name replica.VM) with
  | some p =>
    if replica.Datacenter != p.Datacenter then .pair (create_pair_dict p replica)
    else matchFallback prods replica
  | none => matchFallback prods replica

/-- dr.py: `match_replicas(production_vms, replica_candidates)` — returns
`(matched_pairs, unmatched_replicas)`, both in replica-candidate order. -/
def match_replicas (prods : List VmRow) : List VmRow → List Pair × List UnmatchedReplica
  | [] => ([], [])
  | r :: rest =>
    let res := match_replicas prods rest
    match matchOne prods r with
    | .pair pr => (pr :: res.1, res.2)
    | .orphan u => (res.1, u :: res.2)
    | .skip => res

/-- One row of the vHost sheet as selected by `api_dr_analysis`, after
numeric cleaning. -/
structure DrHostRow where
  Host : String
  Datacenter : String
  Cluster : String
  CPUs : ℚ
  Cores : ℚ
  MemoryMB : ℚ
  CPUUsage : ℚ
  MemUsage : ℚ
  Source : String
deriving DecidableEq, Repr

/-- dr.py: one entry of the `dr_sites` dictionary built by
`calculate_dr_site_capacity`. -/
structure DrSite where
  datacenter : String
  host_count : ℕ
  total_cores : ℤ
  total_memory_gb : ℚ
  current_cpu_usage_pct : ℚ
  current_mem_usage_pct : ℚ
  replicated_vm_count : ℕ
  required_vcpu : ℤ
  required_memory_gb : ℚ
  required_disk_gb : ℚ
  cpu_capacity_ratio : ℚ
  mem_capacity_ratio : ℚ
  readiness_score : ℚ
  failover_feasible : Bool
deriving DecidableEq, Repr

/-- dr.py, `calculate_dr_site_capacity`: `dc_hosts = vhost[vhost['Datacenter'] == dc]`. -/
def drDcHosts (vhost : List DrHostRow) (dc : String) : List DrHostRow :=
  vhost.filter (fun h => h.Datacenter == dc)

/-- dr.py: `total_cores = int(dc_hosts['Cores'].sum())`. -/
def drTotalCores (vhost : List DrHostRow) (dc : String) : ℤ :=
  pyTrunc (qsum ((drDcHosts vhost dc).map (·.Cores)))

/-- dr.py: `total_memory_gb = round(dc_hosts['MemoryMB'].sum() / 1024, 2)`. -/
def drTotalMemoryGb (vhost : List DrHostRow) (dc : String) : ℚ :=
  pyRound 2 (qsum ((drDcHosts vhost dc).map (·.MemoryMB)) / 1024)

/-- dr.py: `avg_cpu_usage = round(dc_hosts['CPUUsage'].mean(), 1)`. -/
def drAvgCpuUsage (vhost : List DrHostRow) (dc : String) : ℚ :=
  pyRound 1 (qmean ((drDcHosts vhost dc).map (·.CPUUsage)))

/-- dr.py: `avg_mem_usage = round(dc_hosts['MemUsage'].mean(), 1)`. -/
def drAvgMemUsage (vhost : List DrHostRow) (dc : String) : ℚ :=
  pyRound 1 (qmean ((drDcHosts vhost dc).map (·.MemUsage)))

/-- dr.py: the pairs replicating into the datacenter `dc`. -/
def drSitePairs (matched_pairs : List Pair) (dc : String) : List Pair :=
  matched_pairs.filter (fun p => p.replica_dc == dc)

/-- dr.py: `required_vcpu = sum(p['vcpu'] for p in matched_pairs if ...)`. -/
def drRequiredVcpu (matched_pairs : List Pair) (dc : String) : ℤ :=
  ((drSitePairs matched_pairs dc).map (·.vcpu)).foldr (· + ·) 0

/-- dr.py: `required_memory_gb = sum(p['memory_gb'] for p in matched_pairs if ...)`. -/
def drRequiredMemoryGb (matched_pairs : List Pair) (dc : String) : ℚ :=
  qsum ((drSitePairs matched_pairs dc).map (·.memory_gb))

/-- dr.py: `cpu_capacity_ratio = (required_vcpu / total_cores * 100) if
total_cores > 0 else 0` (unrounded; the stored field is this value rounded
to one digit). -/
def drCpuCapacity (matched_pairs : List Pair) (vhost : List DrHostRow) (dc : String) : ℚ :=
  if drTotalCores vhost dc > 0 then
    (drRequiredVcpu matched_pairs dc : ℚ) / (drTotalCores vhost dc : ℚ) * 100
  else 0

/-- dr.py: `mem_capacity_ratio = (required_memory_gb / total_memory_gb *
100) if total_memory_gb > 0 else 0` (unrounded). -/
def drMemCapacity (matched_pairs : List Pair) (vhost : List DrHostRow) (dc : String) : ℚ :=
  if drTotalMemoryGb vhost dc > 0 then
    drRequiredMemoryGb matched_pairs dc / drTotalMemoryGb vhost dc * 100
  else 0

/-- dr.py: `cpu_ready = min(100, available_cpu_pct / cpu_capacity_ratio *
100) if cpu_capacity_ratio > 0 else 100`. -/
def drCpuReady (matched_pairs : List Pair) (vhost : List DrHostRow) (dc : String) : ℚ :=
  if drCpuCapacity matched_pairs vhost dc > 0 then
    min 100 ((100 - drAvgCpuUsage vhost dc) / drCpuCapacity matched_pairs vhost dc * 100)
  else 100

/-- dr.py: `mem_ready = min(100, available_mem_pct / mem_capacity_ratio *
100) if mem_capacity_ratio > 0 else 100`. -/
def drMemReady (matched_pairs : List Pair) (vhost : List DrHostRow) (dc : String) : ℚ :=
  if drMemCapacity matched_pairs vhost dc > 0 then
    min 100 ((100 - drAvgMemUsage vhost dc) / drMemCapacity matched_pairs vhost dc * 100)
  else 100

/-- dr.py: `readiness_score = round((cpu_ready + mem_ready) / 2, 1)`. -/
def drReadinessScore (matched_pairs : List Pair) (vhost : List DrHostRow) (dc : String) : ℚ :=
  pyRound 1 ((drCpuReady matched_pairs vhost dc + drMemReady matched_pairs vhost dc) / 2)

/-- dr.py: the body of the `for dc in unique_dr_dcs` loop of
`calculate_dr_site_capacity` (only reached when the datacenter has at
least one host row). -/
def mkDrSite (matched_pairs : List Pair) (vhost : List DrHostRow) (dc : String) : DrSite :=
  { datacenter := dc
    host_count := (drDcHosts vhost dc).length
    total_cores := drTotalCores vhost dc
    total_memory_gb := drTotalMemoryGb vhost dc
    current_cpu_usage_pct := drAvgCpuUsage vhost dc
    current_mem_usage_pct := drAvgMemUsage vhost dc
    replicated_vm_count := (drSitePairs matched_pairs dc).length
    required_vcpu := drRequiredVcpu matched_pairs dc
    required_memory_gb := drRequiredMemoryGb matched_pairs dc
    required_disk_gb := qsum ((drSitePairs matched_pairs dc).map (·.disk_gb))
    cpu_capacity_ratio := pyRound 1 (drCpuCapacity matched_pairs vhost dc)
    mem_capacity_ratio := pyRound 1 (drMemCapacity matched_pairs vhost dc)
    readiness_score := drReadinessScore matched_pairs vhost dc
    failover_feasible := drReadinessScore matched_pairs vhost dc ≥ 80 }

/-- dr.py: `calculate_dr_site_capacity(matched_pairs, vhost)`.  The Python
code iterates over the set of replica datacenters and only creates an
entry when the datacenter has host rows; iteration order of the set does
not affect the resulting key→value mapping. -/
def calculate_dr_site_capacity (matched_pairs : List Pair) (vhost : List DrHostRow) :
    List (String × DrSite) :=
  ((matched_pairs.map (·.replica_dc)).eraseDups).filterMap (fun dc =>
    if (drDcHosts vhost dc).length > 0 then
      some (dc, mkDrSite matched_pairs vhost dc)
    else none)

/-- api_dr_analysis: `production_vms = vinfo[vinfo['Powerstate'] == 'poweredOn']`. -/
def drProduction (vinfo : List VmRow) : List VmRow :=
  vinfo.filter (fun v => v.Powerstate == "poweredOn")

/-- api_dr_analysis: `replica_candidates = vinfo[vinfo['Powerstate'] == 'poweredOff']`. -/
def drCandidates (vinfo : List VmRow) : List VmRow :=
  vinfo.filter (fun v => v.Powerstate == "poweredOff")

/-- api_dr_analysis: the `match_replicas` call on the power-state partition. -/
def drMatch (vinfo : List VmRow) : List Pair × List UnmatchedReplica :=
  match_replicas (drProduction vinfo) (drCandidates vinfo)

/-- api_dr_analysis: `unprotected_vms = production_vms[~production_vms['VM']
.isin(replicated_prod_names)]` (the subsequent `nlargest(20, ...)` display
selection is a subset of this list and is not re-modelled). -/
def drUnprotected (vinfo : List VmRow) : List VmRow :=
  (drProduction vinfo).filter (fun v =>
    !((drMatch vinfo).1.map (·.production_vm)).contains v.VM)

/-! ## backend/routes/hosts.py — hierarchy aggregator -/

/-- Python dict assignment `m[k] = v`: replace the first binding of `k` or
append a new one (insertion order preserved, keys unique). -/
def setA {α : Type} : List (String × α) → String → α → List (String × α)
  | [], k, v => [(k, v)]
  | (k', v') :: t, k, v =>
    if k' == k then (k, v) :: t else (k', v') :: setA t k v

/-- Python `dict` ensure-then-mutate: apply `f` to the value bound to `k`,
first inserting the default `d` when `k` is absent (`if k not in m:
m[k] = d` followed by an in-place update of `m[k]`). -/
def modA {α : Type} : List (String × α) → String → α → (α → α) → List (String × α)
  | [], k, d, f => [(k, f d)]
  | (k', v) :: t, k, d, f =>
    if k' == k then (k', f v) :: t else (k', v) :: modA t k d f

/-- One row of the vHost sheet as read by `api_hosts_clusters`, after
`clean_numeric_columns` (fields named after the spreadsheet columns
`# CPU`, `Cores per CPU`, `# Cores`, `# Memory`, `CPU usage %`,
`Memory usage %`, `# vCPUs`, `vRAM`). -/
structure HostsRow where
  Host : String
  Datacenter : String
  Cluster : String
  numCPU : ℚ
  coresPerCPU : ℚ
  numCores : ℚ
  numMemory : ℚ
  cpuUsagePct : ℚ
  memUsagePct : ℚ
  numVCPUs : ℚ
  vRAM : ℚ
  Source : String
deriving DecidableEq, Repr

/-- hosts.py, `get_host_metrics`: the two host metrics that
`build_hierarchy` folds into cluster-level totals.  The remaining entries
of the Python metrics dictionary (cpu model, usage percentages, vCPU and
vRAM counts, ratios) are display-only copies that `build_hierarchy` never
reads for the rollups and are not modelled. -/
structure HostMetrics where
  physical_cores : ℤ
  physical_ram_gb : ℚ
deriving DecidableEq, Repr

/-- hosts.py, `get_host_metrics` body for one row: `physical_cores =
int(host['# Cores']) if host['# Cores'] > 0 else int(host['# CPU'] *
host['Cores per CPU'])`; `physical_ram_gb = round(host['# Memory'] /
1024, 2)`. -/
def mkHostMetrics (h : HostsRow) : HostMetrics :=
  { physical_cores :=
      if h.numCores > 0 then pyTrunc h.numCores else pyTrunc (h.numCPU * h.coresPerCPU)
    physical_ram_gb := pyRound 2 (h.numMemory / 1024) }

/-- hosts.py: `get_host_metrics(vhost)` — a dict keyed by host name built
row by row (a later row with the same host name overwrites the earlier
binding, as Python dict assignment does). -/
def get_host_metrics (vhost : List HostsRow) : List (String × HostMetrics) :=
  vhost.foldl (fun acc h => setA acc h.Host (mkHostMetrics h)) []

/-- hosts.py, `build_hierarchy`: the per-VM record appended to a host's
`vms` list. -/
structure VmData where
  name : String
  powerstate : String
  vcpu : ℤ
  ram_gb : ℚ
  disk_gb : ℚ
  os : String
deriving DecidableEq, Repr

/-- hosts.py: the `vm_data` dictionary built for a vInfo row. -/
def mkVmData (row : VmRow) : VmData :=
  { name := row.VM
    powerstate := row.Powerstate
    vcpu := pyTrunc row.CPUs
    ram_gb := pyRound 2 (row.Memory / 1024)
    disk_gb := pyRound 2 (row.DiskMiB / 1024)
    os := row.OS }

/-- hosts.py: a host-level hierarchy node (rollup counters plus the host
metrics merged in by `**hm`; display-only metric copies omitted). -/
structure HostNode where
  vms : List VmData
  total_vms : ℕ
  powered_on : ℕ
  total_vcpu : ℤ
  total_ram_gb : ℚ
  physical_cores : ℤ
  physical_ram_gb : ℚ
deriving DecidableEq, Repr

/-- hosts.py: a cluster-level hierarchy node (`avg_cpu_usage_pct` /
`avg_ram_usage_pct` are initialised to 0 and only written by the separate
`calculate_aggregated_metrics` pass, so they are omitted here). -/
structure ClusterNode where
  hosts : List (String × HostNode)
  total_vms : ℕ
  powered_on : ℕ
  total_vcpu : ℤ
  total_ram_gb : ℚ
  total_physical_cores : ℤ
  total_physical_ram_gb : ℚ
deriving DecidableEq, Repr

/-- hosts.py: a datacenter-level hierarchy node. -/
structure DcNode where
  clusters : List (String × ClusterNode)
  total_vms : ℕ
  powered_on : ℕ
  total_vcpu : ℤ
  total_ram_gb : ℚ
deriving DecidableEq, Repr

/-- hosts.py: a source-level hierarchy node. -/
structure SourceNode where
  datacenters : List (String × DcNode)
deriving DecidableEq, Repr

/-- hosts.py: the whole hierarchy, keyed by source name. -/
abbrev Hierarchy := List (String × SourceNode)

/-- A fresh host node with zeroed rollups, holding the metrics `hm`. -/
def newHostNode (hm : HostMetrics) : HostNode :=
  { vms := [], total_vms := 0, powered_on := 0, total_vcpu := 0, total_ram_gb := 0
    physical_cores := hm.physical_cores, physical_ram_gb := hm.physical_ram_gb }

/-- A fresh cluster node with zeroed rollups and no hosts. -/
def newClusterNode : ClusterNode :=
  { hosts := [], total_vms := 0, powered_on := 0, total_vcpu := 0, total_ram_gb := 0
    total_physical_cores := 0, total_physical_ram_gb := 0 }

/-- A fresh datacenter node with zeroed rollups and no clusters. -/
def newDcNode : DcNode :=
  { clusters := [], total_vms := 0, powered_on := 0, total_vcpu := 0, total_ram_gb := 0 }

/-- A fresh source node with no datacenters. -/
def newSourceNode : SourceNode := { datacenters := [] }

/-- hosts.py, host pass: `if pd.isna(cluster) or cluster == '' or cluster
== 'nan': cluster = 'Standalone Hosts'` (a NaN cell is modelled as the
string it stringifies to, `"nan"`). -/
def hierClusterKeyHost (cl : String) : String :=
  if cl = "" ∨ cl = "nan" then "Standalone Hosts" else cl

/-- hosts.py, VM pass: `if pd.isna(cluster) or cluster == 'nan': cluster =
'Standalone Hosts'` — note this pass, unlike the host pass, does not remap
the empty string. -/
def hierClusterKeyVm (cl : String) : String :=
  if cl = "nan" then "Standalone Hosts" else cl

/-- hosts.py: `if host_name not in cl['hosts']:` — insert a fresh host
node carrying the looked-up metrics and add its physical capacity to the
cluster totals; a host already present leaves the cluster unchanged. -/
def seedHostInCluster (hm : HostMetrics) (host_name : String) (cl : ClusterNode) : ClusterNode :=
  if (getA cl.hosts host_name).isSome then cl
  else
    { cl with
      hosts := cl.hosts ++ [(host_name, newHostNode hm)]
      total_physical_cores := cl.total_physical_cores + hm.physical_cores
      total_physical_ram_gb := cl.total_physical_ram_gb + hm.physical_ram_gb }

/-- hosts.py: one iteration of the `for _, host in vhost.iterrows()` seed
loop of `build_hierarchy`. -/
def seedStep (metrics : List (String × HostMetrics)) (H : Hierarchy) (h : HostsRow) :
    Hierarchy :=
  let cluster := hierClusterKeyHost h.Cluster
  let hm := (getA metrics h.Host).getD ⟨0, 0⟩
  modA H h.Source newSourceNode (fun sn =>
    { sn with
      datacenters := modA sn.datacenters h.Datacenter newDcNode (fun dcn =>
        { dcn with
          clusters := modA dcn.clusters cluster newClusterNode
            (seedHostInCluster hm h.Host) }) })

/-- hosts.py: the per-host update of the VM pass (`h['vms'].append(...)`
and the four `h[...] += ...` counter bumps). -/
def vmHostUpdate (row : VmRow) (hn : HostNode) : HostNode :=
  { hn with
    vms := hn.vms ++ [mkVmData row]
    total_vms := hn.total_vms + 1
    powered_on := hn.powered_on + (if row.Powerstate = "poweredOn" then 1 else 0)
    total_vcpu := hn.total_vcpu + pyTrunc row.CPUs
    total_ram_gb := hn.total_ram_gb + pyRound 2 (row.Memory / 1024) }

/-- hosts.py: the cluster-level part of the VM pass — ensure the host
exists (`if host not in cl['hosts']`, including the physical-capacity
bump), update that host, and bump the cluster counters. -/
def vmClusterUpdate (hm : HostMetrics) (row : VmRow) (cl : ClusterNode) : ClusterNode :=
  let cl1 := seedHostInCluster hm row.Host cl
  { cl1 with
    hosts := modA cl1.hosts row.Host (newHostNode hm) (vmHostUpdate row)
    total_vms := cl1.total_vms + 1
    powered_on := cl1.powered_on + (if row.Powerstate = "poweredOn" then 1 else 0)
    total_vcpu := cl1.total_vcpu + pyTrunc row.CPUs
    total_ram_gb := cl1.total_ram_gb + pyRound 2 (row.Memory / 1024) }

/-- hosts.py: one iteration of the `for _, row in vinfo.iterrows()` VM
pass of `build_hierarchy` (ensure source/datacenter/cluster exist, then
update cluster, host and datacenter counters). -/
def vmStep (metrics : List (String × HostMetrics)) (H : Hierarchy) (row : VmRow) :
    Hierarchy :=
  let cluster := hierClusterKeyVm row.Cluster
  let hm := (getA metrics row.Host).getD ⟨0, 0⟩
  modA H row.Source newSourceNode (fun sn =>
    { sn with
      datacenters := modA sn.datacenters row.Datacenter newDcNode (fun dcn =>
        { dcn with
          clusters := modA dcn.clusters cluster newClusterNode (vmClusterUpdate hm row)
          total_vms := dcn.total_vms + 1
          powered_on := dcn.powered_on + (if row.Powerstate = "poweredOn" then 1 else 0)
          total_vcpu := dcn.total_vcpu + pyTrunc row.CPUs
          total_ram_gb := dcn.total_ram_gb + pyRound 2 (row.Memory / 1024) }) })

/-- hosts.py: `build_hierarchy(vhost, vinfo, host_metrics)` — seed the
tree from the host rows, then fold in the VM rows. -/
def build_hierarchy (vhost : List HostsRow) (vinfo : List VmRow)
    (host_metrics : List (String × HostMetrics)) : Hierarchy :=
  vinfo.foldl (vmStep host_metrics) (vhost.foldl (seedStep host_metrics) [])

/-- The cluster-level rollup invariant: each of the four rollup counters of
a cluster node equals the sum of the same counter over its host children. -/
def clusterRollupOk (cl : ClusterNode) : Prop :=
  cl.total_vms = (cl.hosts.map (fun e => e.2.total_vms)).sum ∧
  cl.powered_on = (cl.hosts.map (fun e => e.2.powered_on)).sum ∧
  cl.total_vcpu = (cl.hosts.map (fun e => e.2.total_vcpu)).sum ∧
  cl.total_ram_gb = (cl.hosts.map (fun e => e.2.total_ram_gb)).sum

instance (cl : ClusterNode) : Decidable (clusterRollupOk cl) := by
  unfold clusterRollupOk; infer_instance

/-! ## backend/app.py — api_rightsizing finding catalog and ranking -/

/-- A finding record as built by the checks of `api_rightsizing` (the
display-only free-text fields `reason`, `current_value` and
`recommended_value`, and the contextual `host`/`cluster` labels that only
feed the display fill-in step, are omitted; `type` is named `ftype`). -/
structure Finding where
  vm : String
  ftype : String
  severity : String
  potential_savings : ℚ
  resource_type : String
  source : String
deriving DecidableEq, Repr

/-- A pandas DataFrame of typed rows together with its column-name list
(the embedded checks consult `df.columns` before reading typed cells). -/
structure Table (ρ : Type) where
  cols : List String
  rows : List ρ
deriving DecidableEq, Repr

/-- The names of the poweredOn VMs:
`vinfo[vinfo['Powerstate'] == 'poweredOn']['VM']`. -/
def poweredOnNames (vinfo : List VmRow) : List String :=
  (vinfo.filter (fun v => v.Powerstate == "poweredOn")).map (·.VM)

/-- One row of the vMemory sheet (balloon and swap columns after numeric
cleaning). -/
structure VMemRow where
  VM : String
  Ballooned : ℚ
  Swapped : ℚ
  Source : String
deriving DecidableEq, Repr

/-- app.py 3.1: the MEMORY_BALLOON check — `balloon_col` resolves to
`'Ballooned MB'` or `'Ballooned'`; rows with a positive balloon value
produce a CRITICAL finding when the VM name is in the poweredOn name set. -/
def balloonFindings (vinfo : List VmRow) (vmemory : Table VMemRow) : List Finding :=
  if vmemory.rows.isEmpty then []
  else if vmemory.cols.contains "Ballooned MB" || vmemory.cols.contains "Ballooned" then
    (vmemory.rows.filter (fun r => r.Ballooned > 0)).filterMap (fun r =>
      if (poweredOnNames vinfo).contains r.VM then
        some { vm := r.VM, ftype := "MEMORY_BALLOON", severity := "CRITICAL",
               potential_savings := 0, resource_type := "Performance", source := r.Source }
      else none)
  else []

/-- app.py 3.1: the MEMORY_SWAP check, symmetric to the balloon check. -/
def swapFindings (vinfo : List VmRow) (vmemory : Table VMemRow) : List Finding :=
  if vmemory.rows.isEmpty then []
  else if vmemory.cols.contains "Swapped MB" || vmemory.cols.contains "Swapped" then
    (vmemory.rows.filter (fun r => r.Swapped > 0)).filterMap (fun r =>
      if (poweredOnNames vinfo).contains r.VM then
        some { vm := r.VM, ftype := "MEMORY_SWAP", severity := "CRITICAL",
               potential_savings := 0, resource_type := "Performance", source := r.Source }
      else none)
  else []

/-- One row of the vTools sheet; `Status` models whichever of the
`'Status'` / `'Tools status'` columns resolves (a NaN cell stringifies to
`"nan"`, which matches neither OK pattern, as in the Python
`astype(str)`). -/
structure VToolsRow where
  VM : String
  Status : String
  Source : String
deriving DecidableEq, Repr

/-- app.py 2.1: the VM_TOOLS check — rows whose status does not contain
`toolsOk` or `guestToolsRunning` (case-insensitive) produce a HIGH finding
when the VM name is in the poweredOn name set. -/
def toolsFindings (vinfo : List VmRow) (vtools : Table VToolsRow) : List Finding :=
  if vtools.rows.isEmpty then []
  else if vtools.cols.contains "Status" || vtools.cols.contains "Tools status" then
    (vtools.rows.filter (fun r =>
        !(pyContains (pyLower r.Status) "toolsok" ||
          pyContains (pyLower r.Status) "guesttoolsrunning"))).filterMap (fun r =>
      if (poweredOnNames vinfo).contains r.VM then
        some { vm := r.VM, ftype := "VM_TOOLS", severity := "HIGH",
               potential_savings := 0, resource_type := "Health", source := r.Source }
      else none)
  else []

/-- Thresholds read from the configuration module (`import config as cfg`;
config.py is outside the analysed sources, so they stay parameters and
every theorem below holds for all values). -/
structure RsConfig where
  cpuMinVcpuCheck : ℚ
  cpuMaxUsagePct : ℚ
  cpuMinVcpuRecommend : ℤ
  cpuMinReductionFraction : ℚ
  dsFreeCriticalPct : ℚ
  dsFreeHighPct : ℚ
  dsFreeWarnPct : ℚ
deriving DecidableEq, Repr

/-- One row of the vCPU sheet after cleaning (`CPUs` filled with 1,
`Overall` with 0); `MaxMhz` models the `'Max'` column when present. -/
structure VCpuRow where
  VM : String
  CPUs : ℚ
  Overall : ℚ
  MaxMhz : ℚ
deriving DecidableEq, Repr

/-- One row of the vHost sheet as read by the CPU-underutilization check
(CPU model string and core speed). -/
structure AppHostRow where
  Host : String
  CpuModel : String
  Speed : ℚ
deriving DecidableEq, Repr

/-- app.py: one entry of `host_cpu_info`. -/
structure HostCpuInfo where
  speed : ℚ
  efficiency : ℚ
  vendor : String
deriving DecidableEq, Repr

/-- app.py: the per-host entry of `host_cpu_info` — speed 0 (or NaN,
modelled as 0) falls back to 2000 MHz; AMD/EPYC models get the 1.15
efficiency factor, everything else counts as Intel with factor 1. -/
def mkHostCpuInfo (h : AppHostRow) : HostCpuInfo :=
  let speed := if h.Speed = 0 then 2000 else h.Speed
  if pyContains (pyUpper h.CpuModel) "AMD" || pyContains (pyUpper h.CpuModel) "EPYC" then
    { speed := speed, efficiency := 115 / 100, vendor := "AMD" }
  else
    { speed := speed, efficiency := 1, vendor := "Intel" }

/-- app.py: `host_cpu_info` — a dict keyed by host name (empty names
skipped; a later row overwrites an earlier binding). -/
def host_cpu_info (vhost : List AppHostRow) : List (String × HostCpuInfo) :=
  vhost.foldl (fun acc h =>
    if h.Host == "" then acc else setA acc h.Host (mkHostCpuInfo h)) []

/-- app.py: `vcpu.merge(vinfo[['VM', 'Powerstate', 'Host', 'Source']],
on='VM', how='left')` — each vCPU row is joined with every vInfo row of
the same VM name, or with `none` when no vInfo row matches. -/
def mergeVinfo (vcpu : List VCpuRow) (vinfo : List VmRow) : List (VCpuRow × Option VmRow) :=
  vcpu.flatMap (fun c =>
    match vinfo.filter (fun v => v.VM == c.VM) with
    | [] => [(c, none)]
    | ms => ms.map (fun v => (c, some v)))

/-- app.py 1.2: the CPU_UNDERUTILIZED check (guarded on a nonempty vCPU
sheet carrying an `Overall` column; rows joined to a poweredOn vInfo row
with enough vCPUs; usage percent against the reported or derived MHz
capacity; conservative recommendation floored by the minimum-reduction
fraction). -/
def cpuHostInfoOf (hinfo : List (String × HostCpuInfo)) (cv : VCpuRow × Option VmRow) :
    HostCpuInfo :=
  (getA hinfo (match cv.2 with | some v => v.Host | none => "")).getD
    { speed := 2000, efficiency := 1, vendor := "Intel" }

/-- app.py 1.2: `max_capacity_mhz` — the reported `Max` MHz when the
column exists and the value is positive, else vCPUs times effective core
speed. -/
def cpuMaxCapacity (hinfo : List (String × HostCpuInfo)) (hasMax : Bool)
    (cv : VCpuRow × Option VmRow) : ℚ :=
  let max0 : ℚ := if hasMax then cv.1.MaxMhz else 0
  if max0 ≤ 0 then
    (pyTrunc cv.1.CPUs : ℚ) * (cpuHostInfoOf hinfo cv).speed * (cpuHostInfoOf hinfo cv).efficiency
  else max0

/-- app.py 1.2: `usage_percent` (0 when the capacity is nonpositive). -/
def cpuUsagePercent (hinfo : List (String × HostCpuInfo)) (hasMax : Bool)
    (cv : VCpuRow × Option VmRow) : ℚ :=
  if cpuMaxCapacity hinfo hasMax cv > 0 then
    cv.1.Overall / cpuMaxCapacity hinfo hasMax cv * 100
  else 0

/-- app.py 1.2: `needed_cpus = max(usage_based_cpus, min_recommended)`. -/
def cpuNeeded (cfg : RsConfig) (hinfo : List (String × HostCpuInfo))
    (cv : VCpuRow × Option VmRow) : ℤ :=
  max
    (max 2 (pyTrunc (cv.1.Overall /
      ((cpuHostInfoOf hinfo cv).speed * (cpuHostInfoOf hinfo cv).efficiency) + 1)))
    (max 2 (pyTrunc ((pyTrunc cv.1.CPUs : ℚ) * cfg.cpuMinReductionFraction)))

/-- app.py 1.2: the loop body for one merged row of the CPU_UNDERUTILIZED
check (skip nonpositive vCPU counts; require low usage percent and enough
current vCPUs; emit only when the recommendation actually reduces). -/
def cpuUnderutilOne (cfg : RsConfig) (hinfo : List (String × HostCpuInfo))
    (hasMax : Bool) (cv : VCpuRow × Option VmRow) : Option Finding :=
  if pyTrunc cv.1.CPUs ≤ 0 then none
  else if cpuUsagePercent hinfo hasMax cv < cfg.cpuMaxUsagePct ∧
      pyTrunc cv.1.CPUs ≥ cfg.cpuMinVcpuRecommend then
    if cpuNeeded cfg hinfo cv < pyTrunc cv.1.CPUs then
      some { vm := cv.1.VM, ftype := "CPU_UNDERUTILIZED", severity := "LOW"
             potential_savings := ((pyTrunc cv.1.CPUs - cpuNeeded cfg hinfo cv : ℤ) : ℚ)
             resource_type := "vCPU"
             source := match cv.2 with | some v => v.Source | none => "" }
    else none
  else none

/-- app.py 1.2: the CPU_UNDERUTILIZED check (empty sheet or missing
`Overall` column short-circuits; only merged rows joined to a poweredOn
vInfo record with enough vCPUs reach the loop body). -/
def cpuUnderutilFindings (cfg : RsConfig) (vinfo : List VmRow) (vcpu : Table VCpuRow)
    (vhost : List AppHostRow) : List Finding :=
  if vcpu.rows.isEmpty || !vcpu.cols.contains "Overall" then []
  else
    ((mergeVinfo vcpu.rows vinfo).filter (fun cv =>
      (match cv.2 with
       | some v => v.Powerstate == "poweredOn"
       | none => false) &&
      cv.1.CPUs > cfg.cpuMinVcpuCheck)).filterMap
        (cpuUnderutilOne cfg (host_cpu_info vhost) (vcpu.cols.contains "Max"))

/-- One row of the vDatastore sheet after numeric cleaning (`Name`,
capacity / free / provisioned columns). -/
structure DsRow where
  Name : String
  CapacityMiB : ℚ
  FreeMiB : ℚ
  ProvisionedMiB : ℚ
  Source : String
deriving DecidableEq, Repr

/-- app.py 3.3: the DATASTORE_LOW_SPACE check — tiered severities on the
free-space percentage of each datastore with positive capacity
(`cap_col` / `free_col` resolve to the MiB or MB spellings). -/
def datastoreLowSpaceFindings (cfg : RsConfig) (vdatastore : Table DsRow) : List Finding :=
  if vdatastore.rows.isEmpty then []
  else if (vdatastore.cols.contains "Capacity MiB" || vdatastore.cols.contains "Capacity MB") &&
      (vdatastore.cols.contains "Free MiB" || vdatastore.cols.contains "Free MB") then
    vdatastore.rows.filterMap (fun ds =>
      if ds.CapacityMiB > 0 then
        let free_pct := ds.FreeMiB / ds.CapacityMiB * 100
        if free_pct < cfg.dsFreeCriticalPct then
          some { vm := ds.Name, ftype := "DATASTORE_LOW_SPACE", severity := "CRITICAL",
                 potential_savings := 0, resource_type := "Storage", source := ds.Source }
        else if free_pct < cfg.dsFreeHighPct then
          some { vm := ds.Name, ftype := "DATASTORE_LOW_SPACE", severity := "HIGH",
                 potential_savings := 0, resource_type := "Storage", source := ds.Source }
        else if free_pct < cfg.dsFreeWarnPct then
          some { vm := ds.Name, ftype := "DATASTORE_LOW_SPACE", severity := "MEDIUM",
                 potential_savings := 0, resource_type := "Storage", source := ds.Source }
        else none
      else none)
  else []

/-- app.py, filter-and-sort stage: the severity order
(`{'CRITICAL': 0, 'HIGH': 1, 'MEDIUM': 2, 'LOW': 3}.get(severity, 4)`). -/
def severityRank (s : String) : ℕ :=
  if s = "CRITICAL" then 0
  else if s = "HIGH" then 1
  else if s = "MEDIUM" then 2
  else if s = "LOW" then 3
  else 4

/-- app.py: `compliance_types` — the always-show finding types. -/
def compliance_types : List String :=
  ["EOL_OS", "OLD_HW_VERSION", "VM_TOOLS", "OLD_SNAPSHOT",
   "LEGACY_NIC", "CONSOLIDATE_SNAPSHOTS", "CPU_LIMIT", "RAM_LIMIT",
   "ZOMBIE_RESOURCE", "NUMA_ALIGNMENT", "MEMORY_BALLOON", "MEMORY_SWAP",
   "HOST_CPU_OVERCOMMIT", "DATASTORE_LOW_SPACE", "DATASTORE_OVERCOMMIT",
   "FLOPPY_CONNECTED", "STORAGE_OVERPROVISIONED"]

/-- app.py: the filter predicate of the ranking stage — keep findings with
positive potential savings or an always-show compliance type. -/
def keepFinding (f : Finding) : Bool :=
  f.potential_savings > 0 || compliance_types.contains f.ftype

/-- The sort key order of the ranking stage: severity rank ascending, then
potential savings descending (the Python key is the lexicographic pair
`(severity_rank, -potential_savings)`). -/
def rankLE (a b : Finding) : Prop :=
  severityRank a.severity < severityRank b.severity ∨
    (severityRank a.severity = severityRank b.severity ∧
      b.potential_savings ≤ a.potential_savings)

instance : DecidableRel rankLE := fun a b => by
  unfold rankLE; infer_instance

instance : IsTotal Finding rankLE :=
  ⟨fun a b => by
    unfold rankLE
    rcases lt_trichotomy (severityRank a.severity) (severityRank b.severity) with h | h | h
    · exact Or.inl (Or.inl h)
    · rcases le_total b.potential_savings a.potential_savings with hs | hs
      · exact Or.inl (Or.inr ⟨h, hs⟩)
      · exact Or.inr (Or.inr ⟨h.symm, hs⟩)
    · exact Or.inr (Or.inl h)⟩

instance : IsTrans Finding rankLE :=
  ⟨fun a b c hab hbc => by
    unfold rankLE at hab hbc ⊢
    rcases hab with h1 | ⟨e1, s1⟩
    · rcases hbc with h2 | ⟨e2, s2⟩
      · exact Or.inl (h1.trans h2)
      · exact Or.inl (e2 ▸ h1)
    · rcases hbc with h2 | ⟨e2, s2⟩
      · exact Or.inl (e1 ▸ h2)
      · exact Or.inr ⟨e1.trans e2, s2.trans s1⟩⟩

/-- app.py: `filtered_recommendations.sort(key=...)` — Python `list.sort`
is a stable sort; all stable sorts by the same key compute the same
function, so it is embedded as a stable insertion sort by `rankLE`. -/
def rankedOutput (recs : List Finding) : List Finding :=
  (recs.filter keepFinding).insertionSort rankLE

/-! ## backend/utils/db.py and backend/routes/optimization.py -/

/-- An untyped spreadsheet cell (string, numeric, or missing); a numeric
string cell is modelled as already parsed (`pd.to_numeric` coerces it, and
coercion failures become NaN, which the cleaning helpers map to 0). -/
inductive PValue where
  | str (s : String)
  | num (q : ℚ)
  | null
deriving DecidableEq, Repr

/-- An untyped row: a mapping from column name to cell value. -/
abbrev PRow := List (String × PValue)

/-- An untyped DataFrame with its column list. -/
structure PTable where
  cols : List String
  rows : List PRow
deriving DecidableEq, Repr

/-- The empty DataFrame (`pd.DataFrame()`). -/
def emptyPTable : PTable := ⟨[], []⟩

/-- db.py: `get_combined_data(sheet_name)` — the database is a mapping
from table name to table; a sheet whose table is absent from
`sqlite_master` yields an empty DataFrame rather than an error. -/
def get_combined_data (db : List (String × PTable)) (sheet_name : String) : PTable :=
  match getA db sheet_name with
  | none => emptyPTable
  | some t => t

/-- pandas `Series.get(key, default)` on an untyped row. -/
def pyGet (r : PRow) (k : String) (d : PValue) : PValue := (getA r k).getD d

/-- The string content of a cell (the embedded code only applies this to
string columns; a missing or numeric cell reads as the empty string). -/
def asStr : PValue → String
  | .str s => s
  | .num _ => ""
  | .null => ""

/-- optimization.py: `clean_numeric` on a scalar — numeric cells pass
through, anything else (unparseable text, missing) becomes 0. -/
def clean_numeric : PValue → ℚ
  | .num q => q
  | _ => 0

/-- Python `int(...)` on a cell (the embedded rows hold numeric values in
the columns this is applied to). -/
def pyIntV : PValue → ℤ
  | .num q => pyTrunc q
  | _ => 0

/-- optimization.py: `check_cpu_underutilization(vcpu, vhost_info)` — an
empty sheet or a sheet without the `Overall` column yields no findings;
otherwise poweredOn rows with more than 2 vCPUs and usage below 10% of the
host-speed capacity produce LOW_CPU_USAGE findings.  `vhost_info` is the
host-name → core-speed map (`.get(host, {}).get('speed', 2400)`). -/
def check_cpu_underutilization (vcpu : PTable) (vhost_info : List (String × ℚ)) :
    List Finding :=
  if vcpu.rows.isEmpty || !vcpu.cols.contains "Overall" then []
  else
    (vcpu.rows.filter (fun r => pyGet r "Powerstate" .null == .str "poweredOn")).filterMap
      (fun r =>
        let current_cpu : ℤ := pyIntV (pyGet r "CPUs" (.num 1))
        if current_cpu ≤ 2 then none
        else
          let usage := clean_numeric (pyGet r "Overall" (.num 0))
          let host := asStr (pyGet r "Host" (.str ""))
          let speed := (getA vhost_info host).getD 2400
          let max_capacity : ℚ := (current_cpu : ℚ) * speed
          let usage_pct : ℚ := if max_capacity > 0 then usage / max_capacity * 100 else 0
          if usage_pct < 10 then
            let recommended : ℤ := max 2 (pyTrunc ((current_cpu : ℚ) / 2))
            some { vm := asStr (pyGet r "VM" .null), ftype := "LOW_CPU_USAGE",
                   severity := "LOW",
                   potential_savings := ((current_cpu - recommended : ℤ) : ℚ),
                   resource_type := "vCPU", source := asStr (pyGet r "Source" (.str "")) }
          else none)

/-- optimization.py: the EOL signature list of `check_eol_os` (a regex
alternation of literal fragments, matched case-insensitively). -/
def EOL_SIGNS : List String :=
  ["2003", "2008", "2012", "xp", "vista", "7",
   "centos 6", "centos 5", "ubuntu 14", "ubuntu 16", "debian 8"]

/-- optimization.py: `check_eol_os(vinfo)` — no OS column yields no
findings; otherwise every row whose OS label contains an EOL fragment
produces a HIGH security finding. -/
def check_eol_os (vinfo : PTable) : List Finding :=
  if !vinfo.cols.contains "OS according to the configuration file" then []
  else
    (vinfo.rows.filter (fun r => EOL_SIGNS.any (fun sig =>
        pyContains (pyLower (asStr (pyGet r "OS according to the configuration file" .null)))
          sig))).map (fun r =>
      { vm := asStr (pyGet r "VM" .null), ftype := "EOL_OS", severity := "HIGH",
        potential_savings := 0, resource_type := "Security",
        source := asStr (pyGet r "Source" (.str "")) })

/-- optimization.py: `check_vm_tools(vtools, vinfo)` — an empty sheet or no
column whose name contains `Status` or `Tools` yields no findings;
otherwise rows with a not-OK status whose VM is in the poweredOn name set
of vinfo produce HIGH findings. -/
def check_vm_tools (vtools : PTable) (vinfo : PTable) : List Finding :=
  if vtools.rows.isEmpty then []
  else
    match vtools.cols.find? (fun c => pyContains c "Status" || pyContains c "Tools") with
    | none => []
    | some status_col =>
      let on_vms := (vinfo.rows.filter (fun r =>
          pyGet r "Powerstate" .null == .str "poweredOn")).map
        (fun r => asStr (pyGet r "VM" .null))
      (vtools.rows.filter (fun r =>
          !(pyContains (pyLower (asStr (pyGet r status_col .null))) "toolsok" ||
            pyContains (pyLower (asStr (pyGet r status_col .null))) "guesttoolsrunning")))
        |>.filterMap (fun r =>
          if on_vms.contains (asStr (pyGet r "VM" .null)) then
            some { vm := asStr (pyGet r "VM" .null), ftype := "VM_TOOLS", severity := "HIGH",
                   potential_savings := 0, resource_type := "Health",
                   source := asStr (pyGet r "Source" (.str "")) }
          else none)

/-- One row of the vHealth table as read by `get_zombie_vms`. -/
structure HealthRow where
  Name : String
  Message : String
  Source : String
deriving DecidableEq, Repr

/-- optimization.py: `get_zombie_vms()` — `none` models an absent vHealth
table (the sqlite_master check returns no row and the function returns an
empty list); otherwise rows whose message contains `zombie` (SQLite `LIKE`
is ASCII case-insensitive) produce ZOMBIE_DISK findings whose target is
the constant placeholder string `'Orphaned Disk'`. -/
def get_zombie_vms (vhealth : Option (List HealthRow)) : List Finding :=
  match vhealth with
  | none => []
  | some rows =>
    (rows.filter (fun r => pyContains (pyLower r.Message) "zombie")).map (fun r =>
      { vm := "Orphaned Disk", ftype := "ZOMBIE_DISK", severity := "HIGH",
        potential_savings := 0, resource_type := "Storage", source := r.Source })

/-! ## Concrete fixtures used by witnesses and counterexamples -/

/-- Fixture: a powered-on production VM `app` in datacenter DC-A. -/
def vmApp : VmRow :=
  ⟨"app", "poweredOn", 4, 8192, 102400, "esx1", "cl1", "DC-A", "src1", "linux"⟩

/-- Fixture: a powered-off replica `app_dr` in datacenter DC-B. -/
def vmAppDr : VmRow :=
  ⟨"app_dr", "poweredOff", 2, 4096, 51200, "esx9", "cl9", "DC-B", "src1", "linux"⟩

/-- Fixture: a second powered-off replica `app-dr` in datacenter DC-C. -/
def vmAppDash : VmRow :=
  ⟨"app-dr", "poweredOff", 2, 4096, 51200, "esx8", "cl8", "DC-C", "src1", "linux"⟩

/-- Fixture: a suspended VM. -/
def vmSusp : VmRow :=
  ⟨"paused01", "suspended", 2, 2048, 10240, "esx1", "cl1", "DC-A", "src1", "win"⟩

/-- Fixture: one vHost row in datacenter DC-B (32 cores, 256 GiB RAM, 40%
CPU / 50% memory usage). -/
def drHostB : DrHostRow :=
  ⟨"esx9", "DC-B", "cl9", 2, 32, 262144, 40, 50, "src1"⟩

/-- Fixture: the matched-pair list replicating `app` into DC-B. -/
def c6Pairs : List Pair := [create_pair_dict vmApp vmAppDr]

/-- Fixture: one vHost row (host esx1 UNDER cl1/DC-A/src1) for the
hierarchy aggregator. -/
def hostsRowFix : HostsRow :=
  ⟨"esx1", "DC-A", "cl1", 2, 16, 32, 262144, 40, 50, 64, 131072, "src1"⟩

/-- Fixture: the hierarchy built from one host row and one VM row. -/
def c7H : Hierarchy :=
  build_hierarchy [hostsRowFix] [vmApp] (get_host_metrics [hostsRowFix])

/-- Fixture: the first source node of the fixture hierarchy. -/
def c7S : String × SourceNode := c7H.get ⟨0, by decide⟩

/-- Fixture: the first datacenter node under that source. -/
def c7D : String × DcNode := c7S.2.datacenters.get ⟨0, by decide⟩

/-- Fixture: the first cluster node under that datacenter. -/
def c7C : String × ClusterNode := c7D.2.clusters.get ⟨0, by decide⟩

/-- Fixture: a powered-off VM `db01`. -/
def vmOff : VmRow :=
  ⟨"db01", "poweredOff", 4, 8192, 51200, "esx1", "cl1", "DC-A", "src1", "linux"⟩

/-- Fixture: a vMemory table holding balloon and swap activity for the
poweredOn `app` and the poweredOff `db01`. -/
def memTableFix : Table VMemRow :=
  ⟨["VM", "Ballooned MB", "Swapped MB", "Source"],
   [⟨"app", 256, 0, "src1"⟩, ⟨"db01", 128, 64, "src1"⟩]⟩

/-- Fixture: a vTools table with a not-OK status for `db01`. -/
def toolsTableFix : Table VToolsRow :=
  ⟨["VM", "Status", "Source"], [⟨"db01", "toolsNotInstalled", "src1"⟩]⟩

/-- Fixture: a vCPU table with low usage reported for `db01`. -/
def cpuTableFix : Table VCpuRow :=
  ⟨["VM", "CPUs", "Overall", "Max"], [⟨"db01", 4, 100, 0⟩]⟩

/-- Fixture: one Intel host for the CPU check's host map. -/
def appHostFix : List AppHostRow := [⟨"esx1", "Intel Xeon", 2400⟩]

/-- Fixture: a threshold configuration with the documented defaults. -/
def cfgFix : RsConfig := ⟨2, 15, 4, 1 / 2, 10, 15, 20⟩

/-- Fixture: a vDatastore table with 8% free space on `ds1`. -/
def dsTableFix : Table DsRow :=
  ⟨["Name", "Capacity MiB", "Free MiB", "Provisioned MiB"],
   [⟨"ds1", 1024000, 81920, 0, "src1"⟩]⟩

/-- Fixture: the CRITICAL low-space finding emitted for `ds1`. -/
def dsLowFind : Finding :=
  ⟨"ds1", "DATASTORE_LOW_SPACE", "CRITICAL", 0, "Storage", "src1"⟩

/-- Fixture: one vHealth row reporting a zombie disk. -/
def healthRowFix : HealthRow :=
  ⟨"zombie1.vmdk", "Zombie vmdk found on datastore", "src1"⟩

/-- Fixture: the ZOMBIE_DISK finding emitted for that row. -/
def zombieFind : Finding :=
  ⟨"Orphaned Disk", "ZOMBIE_DISK", "HIGH", 0, "Storage", "src1"⟩

/-- Fixture: a MEDIUM finding with positive savings. -/
def findA : Finding := ⟨"vmA", "POWERED_OFF_DISK", "MEDIUM", 50, "DISK_GB", "src1"⟩

/-- Fixture: a HIGH compliance finding with zero savings. -/
def findB : Finding := ⟨"vmB", "EOL_OS", "HIGH", 0, "Security", "src1"⟩

/-! ## Theorems -/

/-- The `get_base_name` loop strips the first pattern of the list that
occurs in the name, and leaves the name unchanged when none occurs. -/
theorem stripFirstPattern_eq_find (pats : List String) (name : String) :
    stripFirstPattern pats name =
      match pats.find? (fun p => pyContains name p) with
      | some p => pyReplace name p
      | none => name := by
  induction pats with
  | nil => rfl
  | cons p rest ih =>
    simp only [stripFirstPattern, List.find?]
    cases h : pyContains name p
    · simpa [h] using ih
    · simp [h]

/-- C5: for every VM name, `get_base_name` returns the lowercased name with
the first matching pattern of the ordered replica-suffix list removed
(every occurrence of that one pattern, which is what Python
`str.replace(pattern, '')` does), and returns the lowercased full name when
no pattern occurs in it. -/
theorem c5_base_name_first_pattern (vm_name : String) :
    get_base_name vm_name =
      match REPLICA_PATTERNS.find? (fun p => pyContains (pyLower vm_name) p) with
      | some p => pyReplace (pyLower vm_name) p
      | none => pyLower vm_name :=
  stripFirstPattern_eq_find REPLICA_PATTERNS (pyLower vm_name)

/-- A pair produced by `matchOne` comes from a production row of the
production list and the given replica, and the two rows lie in different
datacenters (both the base-name path and the exact-name fallback check
this). -/
theorem matchFallback_pair_sound (prods : List VmRow) (r : VmRow) (pr : Pair)
    (h : matchFallback prods r = .pair pr) :
    ∃ p ∈ prods, pr = create_pair_dict p r ∧ p.Datacenter ≠ r.Datacenter := by
  unfold matchFallback at h
  cases hfb : prods.find? (fun p' =>
      pyLower p'.VM == pyLower r.VM && p'.Datacenter != r.Datacenter) with
  | some q =>
    rw [hfb] at h
    simp only [MatchOutcome.pair.injEq] at h
    have hq := List.find?_some hfb
    have hqm := List.mem_of_find?_eq_some hfb
    simp only [Bool.and_eq_true, bne_iff_ne] at hq
    exact ⟨q, hqm, h.symm, hq.2⟩
  | none =>
    rw [hfb] at h
    cases hrp : hasReplicaPattern r.VM <;> simp [hrp] at h

theorem matchOne_pair_sound (prods : List VmRow) (r : VmRow) (pr : Pair)
    (h : matchOne prods r = .pair pr) :
    ∃ p ∈ prods, pr = create_pair_dict p r ∧ p.Datacenter ≠ r.Datacenter := by
  unfold matchOne at h
  cases hbase : prods.find? (fun p => get_base_name p.VM == get_base_name r.VM) with
  | some p =>
    rw [hbase] at h
    cases hb : r.Datacenter != p.Datacenter
    · simp only [hb, Bool.false_eq_true, if_false] at h
      exact matchFallback_pair_sound prods r pr h
    · simp only [hb, if_true, MatchOutcome.pair.injEq] at h
      have hdc : r.Datacenter ≠ p.Datacenter := by simpa [bne_iff_ne] using hb
      exact ⟨p, List.mem_of_find?_eq_some hbase, h.symm, fun e => hdc e.symm⟩
  | none =>
    rw [hbase] at h
    exact matchFallback_pair_sound prods r pr h

/-- An orphan record produced by `matchFallback` is built from the given
replica row. -/
theorem matchFallback_orphan_sound (prods : List VmRow) (r : VmRow) (u : UnmatchedReplica)
    (h : matchFallback prods r = .orphan u) : u = mkUnmatched r := by
  unfold matchFallback at h
  cases hfb : prods.find? (fun p' =>
      pyLower p'.VM == pyLower r.VM && p'.Datacenter != r.Datacenter) with
  | some q => rw [hfb] at h; simp_all
  | none =>
    rw [hfb] at h
    cases hrp : hasReplicaPattern r.VM <;> simp [hrp] at h
    exact h.symm

/-- An orphan record produced by `matchOne` is built from the given
replica row. -/
theorem matchOne_orphan_sound (prods : List VmRow) (r : VmRow) (u : UnmatchedReplica)
    (h : matchOne prods r = .orphan u) : u = mkUnmatched r := by
  unfold matchOne at h
  cases hbase : prods.find? (fun p => get_base_name p.VM == get_base_name r.VM) with
  | some p =>
    rw [hbase] at h
    cases hb : r.Datacenter != p.Datacenter
    · simp only [hb, Bool.false_eq_true, if_false] at h
      exact matchFallback_orphan_sound prods r u h
    · simp only [hb, if_true] at h
      simp at h
  | none =>
    rw [hbase] at h
    exact matchFallback_orphan_sound prods r u h

/-- Every matched pair of `match_replicas` is `create_pair_dict p r` for a
production row `p` and a replica candidate `r`, lying in different
datacenters. -/
theorem match_replicas_pairs_sound (prods reps : List VmRow) :
    ∀ pr ∈ (match_replicas prods reps).1,
      ∃ p ∈ prods, ∃ r ∈ reps, pr = create_pair_dict p r ∧ p.Datacenter ≠ r.Datacenter := by
  induction reps with
  | nil => simp [match_replicas]
  | cons r rest ih =>
    intro pr hpr
    simp only [match_replicas] at hpr
    cases hm : matchOne prods r with
    | pair q =>
      rw [hm] at hpr
      rcases List.mem_cons.mp hpr with h | h
      · obtain ⟨p, hp, he, hdc⟩ := matchOne_pair_sound prods r q hm
        exact ⟨p, hp, r, List.mem_cons_self r rest, h ▸ he, hdc⟩
      · obtain ⟨p, hp, r', hr', he, hdc⟩ := ih pr h
        exact ⟨p, hp, r', List.mem_cons_of_mem r hr', he, hdc⟩
    | orphan u =>
      rw [hm] at hpr
      obtain ⟨p, hp, r', hr', he, hdc⟩ := ih pr hpr
      exact ⟨p, hp, r', List.mem_cons_of_mem r hr', he, hdc⟩
    | skip =>
      rw [hm] at hpr
      obtain ⟨p, hp, r', hr', he, hdc⟩ := ih pr hpr
      exact ⟨p, hp, r', List.mem_cons_of_mem r hr', he, hdc⟩

/-- Every unmatched-replica record of `match_replicas` is built from a
replica candidate row. -/
theorem match_replicas_unmatched_sound (prods reps : List VmRow) :
    ∀ u ∈ (match_replicas prods reps).2, ∃ r ∈ reps, u = mkUnmatched r := by
  induction reps with
  | nil => simp [match_replicas]
  | cons r rest ih =>
    intro u hu
    simp only [match_replicas] at hu
    cases hm : matchOne prods r with
    | pair q =>
      rw [hm] at hu
      obtain ⟨r', hr', he⟩ := ih u hu
      exact ⟨r', List.mem_cons_of_mem r hr', he⟩
    | orphan w =>
      rw [hm] at hu
      rcases List.mem_cons.mp hu with h | h
      · exact ⟨r, List.mem_cons_self r rest, h ▸ matchOne_orphan_sound prods r w hm⟩
      · obtain ⟨r', hr', he⟩ := ih u h
        exact ⟨r', List.mem_cons_of_mem r hr', he⟩
    | skip =>
      rw [hm] at hu
      obtain ⟨r', hr', he⟩ := ih u hu
      exact ⟨r', List.mem_cons_of_mem r hr', he⟩

/-- Membership in `drProduction` forces the poweredOn power state. -/
theorem mem_drProduction (vinfo : List VmRow) (v : VmRow) (h : v ∈ drProduction vinfo) :
    v ∈ vinfo ∧ v.Powerstate = "poweredOn" := by
  have := List.mem_filter.mp h
  simpa using this

/-- Membership in `drCandidates` forces the poweredOff power state. -/
theorem mem_drCandidates (vinfo : List VmRow) (v : VmRow) (h : v ∈ drCandidates vinfo) :
    v ∈ vinfo ∧ v.Powerstate = "poweredOff" := by
  have := List.mem_filter.mp h
  simpa using this

/-- C1: every ReplicaPair emitted by the DR matching pass (base-name path
or exact-name fallback path) pairs a poweredOn production row with a
poweredOff replica row, and their datacenter labels differ. -/
theorem c1_replica_pair_invariant (vinfo : List VmRow) (pr : Pair)
    (hpr : pr ∈ (drMatch vinfo).1) :
    ∃ p ∈ vinfo, ∃ r ∈ vinfo,
      p.Powerstate = "poweredOn" ∧ r.Powerstate = "poweredOff" ∧
      pr = create_pair_dict p r ∧ pr.production_dc ≠ pr.replica_dc := by
  obtain ⟨p, hp, r, hr, he, hdc⟩ :=
    match_replicas_pairs_sound (drProduction vinfo) (drCandidates vinfo) pr hpr
  obtain ⟨hpmem, hpon⟩ := mem_drProduction vinfo p hp
  obtain ⟨hrmem, hroff⟩ := mem_drCandidates vinfo r hr
  refine ⟨p, hpmem, r, hrmem, hpon, hroff, he, ?_⟩
  rw [he]
  simpa [create_pair_dict] using hdc

/-- Witness for C1 on the Scenario-4 fixture: `app` (poweredOn, DC-A) is
paired with `app_dr` (poweredOff, DC-B). -/
theorem c1_replica_pair_invariant_witness :
    ∃ p ∈ [vmApp, vmAppDr], ∃ r ∈ [vmApp, vmAppDr],
      p.Powerstate = "poweredOn" ∧ r.Powerstate = "poweredOff" ∧
      create_pair_dict vmApp vmAppDr = create_pair_dict p r ∧
      (create_pair_dict vmApp vmAppDr).production_dc ≠
        (create_pair_dict vmApp vmAppDr).replica_dc :=
  c1_replica_pair_invariant [vmApp, vmAppDr] (create_pair_dict vmApp vmAppDr)
    (by with_unfolding_all decide)

/-- C4 counterexample: with production VM `app` (DC-A) and the two replica
candidates `app_dr` (DC-B) and `app-dr` (DC-C), the matching pass emits two
distinct pairs whose production member is the same production VM, so a
production VM can appear in more than one ReplicaPair. -/
theorem c4_counterexample :
    ∃ pr1 ∈ (drMatch [vmApp, vmAppDr, vmAppDash]).1,
      ∃ pr2 ∈ (drMatch [vmApp, vmAppDr, vmAppDash]).1,
        pr1.production_vm = pr2.production_vm ∧ pr1 ≠ pr2 := by
  with_unfolding_all decide

/-- C4 amended: in one replica-matching pass each replica candidate yields
at most one emitted ReplicaPair (the emitted pair list is exactly the
per-candidate partial matching applied across the candidate list in
order), and ambiguity among several production VMs sharing the candidate's
base name is resolved first-match-wins: whenever the first production row
carrying the candidate's base name lies in a different datacenter, the
emitted pair for that candidate uses exactly that row. -/
theorem c4_amended (prods reps : List VmRow) :
    (match_replicas prods reps).1 =
      reps.filterMap (fun r =>
        match matchOne prods r with
        | .pair pr => some pr
        | _ => none) ∧
    ∀ r : VmRow, ∀ pr : Pair, matchOne prods r = .pair pr →
      ∀ p : VmRow,
        prods.find? (fun p' => get_base_name p'.VM == get_base_name r.VM) = some p →
        r.Datacenter ≠ p.Datacenter → pr = create_pair_dict p r := by
  constructor
  · induction reps with
    | nil => simp [match_replicas]
    | cons r rest ih =>
      simp only [match_replicas, List.filterMap_cons]
      cases hm : matchOne prods r with
      | pair q => simpa using ih
      | orphan u => simpa using ih
      | skip => simpa using ih
  · intro r pr hm p hfind hdc
    unfold matchOne at hm
    rw [hfind] at hm
    have hb : (r.Datacenter != p.Datacenter) = true := by simpa [bne_iff_ne] using hdc
    simp only [hb, if_true, MatchOutcome.pair.injEq] at hm
    exact hm.symm

/-- Witness for the amended C4: on the counterexample fixture, candidate
`app_dr` is matched and its pair uses the first base-name production row
`app`. -/
theorem c4_amended_witness :
    (match_replicas [vmApp] [vmAppDr, vmAppDash]).1 =
      [vmAppDr, vmAppDash].filterMap (fun r =>
        match matchOne [vmApp] r with
        | .pair pr => some pr
        | _ => none) ∧
    create_pair_dict vmApp vmAppDr = create_pair_dict vmApp vmAppDr :=
  ⟨(c4_amended [vmApp] [vmAppDr, vmAppDash]).1,
   (c4_amended [vmApp] [vmAppDr, vmAppDash]).2 vmAppDr
      (create_pair_dict vmApp vmAppDr) (by with_unfolding_all decide) vmApp
      (by rfl) (by decide)⟩

/-- C10: a suspended VM record never appears anywhere in the DR analysis
output: the pass partitions only poweredOn rows into the production side
and only poweredOff rows into the replica-candidate side, every emitted
pair is built from one row of each side, every unmatched replica comes
from the candidate side, and the unprotected list is a sublist of the
production side — so the suspended record is in none of them. -/
theorem c10_suspended_never_in_dr_output (vinfo : List VmRow) (v : VmRow)
    (_hv : v ∈ vinfo) (hs : v.Powerstate = "suspended") :
    v ∉ drProduction vinfo ∧ v ∉ drCandidates vinfo ∧
    (∀ pr ∈ (drMatch vinfo).1,
        ∃ p ∈ drProduction vinfo, ∃ r ∈ drCandidates vinfo,
          p ≠ v ∧ r ≠ v ∧ pr = create_pair_dict p r) ∧
    (∀ u ∈ (drMatch vinfo).2, ∃ r ∈ drCandidates vinfo, r ≠ v ∧ u = mkUnmatched r) ∧
    v ∉ drUnprotected vinfo := by
  have hnp : v ∉ drProduction vinfo := by
    intro h
    have := (mem_drProduction vinfo v h).2
    rw [hs] at this
    exact absurd this (by decide)
  have hnc : v ∉ drCandidates vinfo := by
    intro h
    have := (mem_drCandidates vinfo v h).2
    rw [hs] at this
    exact absurd this (by decide)
  refine ⟨hnp, hnc, ?_, ?_, ?_⟩
  · intro pr hpr
    obtain ⟨p, hp, r, hr, he, _⟩ :=
      match_replicas_pairs_sound (drProduction vinfo) (drCandidates vinfo) pr hpr
    exact ⟨p, hp, r, hr, fun e => hnp (e ▸ hp), fun e => hnc (e ▸ hr), he⟩
  · intro u hu
    obtain ⟨r, hr, he⟩ :=
      match_replicas_unmatched_sound (drProduction vinfo) (drCandidates vinfo) u hu
    exact ⟨r, hr, fun e => hnc (e ▸ hr), he⟩
  · intro h
    exact hnp (List.mem_of_mem_filter h)

/-- Witness for C10 on a fixture inventory holding a suspended VM next to
a matched production/replica pair. -/
theorem c10_suspended_never_in_dr_output_witness :
    vmSusp ∉ drProduction [vmApp, vmAppDr, vmSusp] ∧
    vmSusp ∉ drCandidates [vmApp, vmAppDr, vmSusp] ∧
    (∀ pr ∈ (drMatch [vmApp, vmAppDr, vmSusp]).1,
        ∃ p ∈ drProduction [vmApp, vmAppDr, vmSusp],
          ∃ r ∈ drCandidates [vmApp, vmAppDr, vmSusp],
            p ≠ vmSusp ∧ r ≠ vmSusp ∧ pr = create_pair_dict p r) ∧
    (∀ u ∈ (drMatch [vmApp, vmAppDr, vmSusp]).2,
        ∃ r ∈ drCandidates [vmApp, vmAppDr, vmSusp], r ≠ vmSusp ∧ u = mkUnmatched r) ∧
    vmSusp ∉ drUnprotected [vmApp, vmAppDr, vmSusp] :=
  c10_suspended_never_in_dr_output [vmApp, vmAppDr, vmSusp] vmSusp
    (by decide) (by decide)

/-- Every entry of the `dr_sites` mapping is keyed by a replica datacenter
that has at least one host row, and carries the site record computed for
that datacenter. -/
theorem mem_calculate_dr_site_capacity (matched_pairs : List Pair)
    (vhost : List DrHostRow) (e : String × DrSite)
    (he : e ∈ calculate_dr_site_capacity matched_pairs vhost) :
    e.2 = mkDrSite matched_pairs vhost e.1 ∧ (drDcHosts vhost e.1).length > 0 := by
  unfold calculate_dr_site_capacity at he
  obtain ⟨dc, _, hdc⟩ := List.mem_filterMap.mp he
  by_cases hpos : (drDcHosts vhost dc).length > 0
  · rw [if_pos hpos] at hdc
    obtain ⟨h1, h2⟩ := Prod.mk.injEq .. ▸ Option.some.injEq .. ▸ hdc
    subst h1
    exact ⟨h2.symm, hpos⟩
  · rw [if_neg hpos] at hdc
    cases hdc

/-- Looking up a datacenter in the `dr_sites` mapping yields the site
record computed for it, and only for datacenters that have host rows. -/
theorem getA_calculate_dr_site_capacity (matched_pairs : List Pair)
    (vhost : List DrHostRow) (dc : String) (site : DrSite)
    (h : getA (calculate_dr_site_capacity matched_pairs vhost) dc = some site) :
    site = mkDrSite matched_pairs vhost dc ∧ (drDcHosts vhost dc).length > 0 := by
  unfold getA at h
  cases hf : (calculate_dr_site_capacity matched_pairs vhost).find? (fun e => e.1 == dc) with
  | none => rw [hf] at h; cases h
  | some e =>
    rw [hf] at h
    have hkey : e.1 = dc := by simpa using List.find?_some hf
    have hmem := List.mem_of_find?_eq_some hf
    obtain ⟨h2, hpos⟩ := mem_calculate_dr_site_capacity matched_pairs vhost e hmem
    have hsite : e.2 = site := by simpa using h
    rw [← hsite, ← hkey]
    exact ⟨h2, hpos⟩

/-- C6: for each DR target datacenter that appears in the site-capacity
output, the readiness score is the one-digit rounding of the average of a
CPU component and a RAM component, each capped at 100; the site is
reported failover-feasible exactly when the (rounded) score is ≥ 80; and
the division-by-zero edge cases have defined fallbacks: a datacenter with
no host rows gets no site entry at all (first conjunct and last conjunct),
a zero core or memory total yields a 0 capacity ratio, a zero required
capacity yields a 0 capacity ratio, and a 0 capacity ratio yields a 100
readiness component.  All functions involved are total, so no input
raises an exception. -/
theorem c6_dr_site_readiness (matched_pairs : List Pair) (vhost : List DrHostRow)
    (dc : String) (site : DrSite)
    (h : getA (calculate_dr_site_capacity matched_pairs vhost) dc = some site) :
    (drDcHosts vhost dc).length > 0 ∧
    drCpuReady matched_pairs vhost dc ≤ 100 ∧
    drMemReady matched_pairs vhost dc ≤ 100 ∧
    site.readiness_score =
      pyRound 1 ((drCpuReady matched_pairs vhost dc + drMemReady matched_pairs vhost dc) / 2) ∧
    (site.failover_feasible = true ↔ site.readiness_score ≥ 80) ∧
    (drTotalCores vhost dc ≤ 0 → drCpuCapacity matched_pairs vhost dc = 0) ∧
    (drTotalMemoryGb vhost dc ≤ 0 → drMemCapacity matched_pairs vhost dc = 0) ∧
    (drRequiredVcpu matched_pairs dc = 0 → drCpuCapacity matched_pairs vhost dc = 0) ∧
    (drRequiredMemoryGb matched_pairs dc = 0 → drMemCapacity matched_pairs vhost dc = 0) ∧
    (drCpuCapacity matched_pairs vhost dc = 0 → drCpuReady matched_pairs vhost dc = 100) ∧
    (drMemCapacity matched_pairs vhost dc = 0 → drMemReady matched_pairs vhost dc = 100) ∧
    (∀ dc' : String, drDcHosts vhost dc' = [] →
      getA (calculate_dr_site_capacity matched_pairs vhost) dc' = none) := by
  obtain ⟨hsite, hpos⟩ := getA_calculate_dr_site_capacity matched_pairs vhost dc site h
  subst hsite
  refine ⟨hpos, ?_, ?_, rfl, ?_, ?_, ?_, ?_, ?_, ?_, ?_, ?_⟩
  · unfold drCpuReady
    split
    · exact min_le_left _ _
    · exact le_refl _
  · unfold drMemReady
    split
    · exact min_le_left _ _
    · exact le_refl _
  · simp only [mkDrSite, decide_eq_true_eq]
  · intro hc
    unfold drCpuCapacity
    rw [if_neg (by omega)]
  · intro hm
    unfold drMemCapacity
    rw [if_neg (by simpa using hm)]
  · intro hr
    unfold drCpuCapacity
    split
    · rw [hr]; simp
    · rfl
  · intro hr
    unfold drMemCapacity
    split
    · rw [hr]; simp
    · rfl
  · intro hc
    unfold drCpuReady
    rw [if_neg (by rw [hc]; exact lt_irrefl 0)]
  · intro hm
    unfold drMemReady
    rw [if_neg (by rw [hm]; exact lt_irrefl 0)]
  · intro dc' hempty
    unfold getA
    cases hf : (calculate_dr_site_capacity matched_pairs vhost).find? (fun e => e.1 == dc') with
    | none => rfl
    | some e =>
      have hkey : e.1 = dc' := by simpa using List.find?_some hf
      have hmem := List.mem_of_find?_eq_some hf
      obtain ⟨_, hpos'⟩ := mem_calculate_dr_site_capacity matched_pairs vhost e hmem
      rw [hkey, hempty] at hpos'
      simp at hpos'

/-- Witness for C6 on a one-host fixture: the pair `app → app_dr` replicates
into DC-B, which holds one 32-core host. -/
theorem c6_dr_site_readiness_witness :
    (drDcHosts [drHostB] "DC-B").length > 0 ∧
    drCpuReady c6Pairs [drHostB] "DC-B" ≤ 100 ∧
    drMemReady c6Pairs [drHostB] "DC-B" ≤ 100 ∧
    (mkDrSite c6Pairs [drHostB] "DC-B").readiness_score =
      pyRound 1 ((drCpuReady c6Pairs [drHostB] "DC-B" + drMemReady c6Pairs [drHostB] "DC-B") / 2) ∧
    ((mkDrSite c6Pairs [drHostB] "DC-B").failover_feasible = true ↔
      (mkDrSite c6Pairs [drHostB] "DC-B").readiness_score ≥ 80) ∧
    (drTotalCores [drHostB] "DC-B" ≤ 0 → drCpuCapacity c6Pairs [drHostB] "DC-B" = 0) ∧
    (drTotalMemoryGb [drHostB] "DC-B" ≤ 0 → drMemCapacity c6Pairs [drHostB] "DC-B" = 0) ∧
    (drRequiredVcpu c6Pairs "DC-B" = 0 → drCpuCapacity c6Pairs [drHostB] "DC-B" = 0) ∧
    (drRequiredMemoryGb c6Pairs "DC-B" = 0 → drMemCapacity c6Pairs [drHostB] "DC-B" = 0) ∧
    (drCpuCapacity c6Pairs [drHostB] "DC-B" = 0 → drCpuReady c6Pairs [drHostB] "DC-B" = 100) ∧
    (drMemCapacity c6Pairs [drHostB] "DC-B" = 0 → drMemReady c6Pairs [drHostB] "DC-B" = 100) ∧
    (∀ dc' : String, drDcHosts [drHostB] dc' = [] →
      getA (calculate_dr_site_capacity c6Pairs [drHostB]) dc' = none) :=
  c6_dr_site_readiness c6Pairs [drHostB] "DC-B" (mkDrSite c6Pairs [drHostB] "DC-B") (by rfl)

/-- Elements of `modA l k d f` are either untouched elements of `l` or the
key `k` bound to `f v`, where `v` is the previous binding of `k` (or the
default `d` when `k` was absent). -/
theorem mem_modA {α : Type} (l : List (String × α)) (k : String) (d : α) (f : α → α) :
    ∀ x ∈ modA l k d f, x ∈ l ∨ ∃ v, x = (k, f v) ∧ (v = d ∨ (k, v) ∈ l) := by
  induction l with
  | nil =>
    intro x hx
    simp only [modA, List.mem_singleton] at hx
    exact Or.inr ⟨d, hx, Or.inl rfl⟩
  | cons e t ih =>
    obtain ⟨k', v⟩ := e
    intro x hx
    simp only [modA] at hx
    by_cases hk : (k' == k) = true
    · rw [if_pos hk] at hx
      have hkk : k' = k := by simpa using hk
      rcases List.mem_cons.mp hx with h | h
      · subst hkk
        exact Or.inr ⟨v, h, Or.inr (List.mem_cons_self _ _)⟩
      · exact Or.inl (List.mem_cons_of_mem _ h)
    · rw [if_neg hk] at hx
      rcases List.mem_cons.mp hx with h | h
      · exact Or.inl (h ▸ List.mem_cons_self _ _)
      · rcases ih x h with h' | ⟨v', hv, hin⟩
        · exact Or.inl (List.mem_cons_of_mem _ h')
        · exact Or.inr ⟨v', hv, hin.imp id (List.mem_cons_of_mem _)⟩

/-- Summing a projection over an association list after `modA`: when the
update `f` raises the projection by `δ` and the default has projection 0,
the sum rises by exactly `δ`. -/
theorem sum_modA {α M : Type} [AddCommMonoid M] (g : α → M) (l : List (String × α))
    (k : String) (d : α) (f : α → α) (δ : M)
    (hf : ∀ v, g (f v) = g v + δ) (hd : g d = 0) :
    ((modA l k d f).map (fun e => g e.2)).sum = (l.map (fun e => g e.2)).sum + δ := by
  induction l with
  | nil => simp [modA, hf, hd]
  | cons e t ih =>
    obtain ⟨k', v⟩ := e
    simp only [modA]
    by_cases hk : (k' == k) = true
    · rw [if_pos hk]
      simp only [List.map_cons, List.sum_cons, hf]
      exact add_right_comm _ _ _
    · rw [if_neg hk]
      simp only [List.map_cons, List.sum_cons, ih]
      exact (add_assoc _ _ _).symm

/-- The fresh cluster node satisfies the rollup invariant. -/
theorem clusterRollupOk_new : clusterRollupOk newClusterNode := by
  simp [clusterRollupOk, newClusterNode]

/-- Inserting a fresh (zero-counter) host into a cluster preserves the
rollup invariant. -/
theorem clusterRollupOk_seedHost (hm : HostMetrics) (hname : String) (cl : ClusterNode)
    (h : clusterRollupOk cl) : clusterRollupOk (seedHostInCluster hm hname cl) := by
  unfold seedHostInCluster
  split
  · exact h
  · obtain ⟨h1, h2, h3, h4⟩ := h
    exact ⟨by simp [newHostNode, h1], by simp [newHostNode, h2],
           by simp [newHostNode, h3], by simp [newHostNode, h4]⟩

/-- Folding one VM row into a cluster (host append/update plus the four
cluster counter bumps) preserves the rollup invariant. -/
theorem clusterRollupOk_vmUpdate (hm : HostMetrics) (row : VmRow) (cl : ClusterNode)
    (h : clusterRollupOk cl) : clusterRollupOk (vmClusterUpdate hm row cl) := by
  obtain ⟨e1, e2, e3, e4⟩ := clusterRollupOk_seedHost hm row.Host cl h
  unfold vmClusterUpdate
  refine ⟨?_, ?_, ?_, ?_⟩
  · rw [sum_modA (fun hn => hn.total_vms) _ row.Host (newHostNode hm) (vmHostUpdate row) 1
      (fun v => rfl) rfl]
    simp [e1]
  · rw [sum_modA (fun hn => hn.powered_on) _ row.Host (newHostNode hm) (vmHostUpdate row)
      (if row.Powerstate = "poweredOn" then 1 else 0) (fun v => rfl) rfl]
    simp [e2]
  · rw [sum_modA (fun hn => hn.total_vcpu) _ row.Host (newHostNode hm) (vmHostUpdate row)
      (pyTrunc row.CPUs) (fun v => rfl) rfl]
    simp [e3]
  · rw [sum_modA (fun hn => hn.total_ram_gb) _ row.Host (newHostNode hm) (vmHostUpdate row)
      (pyRound 2 (row.Memory / 1024)) (fun v => rfl) rfl]
    simp [e4]

/-- The hierarchy-wide invariant: every cluster node reachable through a
source and datacenter satisfies the rollup equation. -/
def hierRollupOk (H : Hierarchy) : Prop :=
  ∀ s ∈ H, ∀ d ∈ s.2.datacenters, ∀ c ∈ d.2.clusters, clusterRollupOk c.2

/-- One seed-pass iteration preserves the hierarchy invariant. -/
theorem hierRollupOk_seedStep (metrics : List (String × HostMetrics)) (H : Hierarchy)
    (h : HostsRow) (hOk : hierRollupOk H) : hierRollupOk (seedStep metrics H h) := by
  intro s hs d hd c hc
  simp only [seedStep] at hs
  rcases mem_modA _ _ _ _ s hs with hs' | ⟨sn, rfl, hsn⟩
  · exact hOk s hs' d hd c hc
  · simp only at hd
    rcases mem_modA _ _ _ _ d hd with hd' | ⟨dcn, rfl, hdcn⟩
    · rcases hsn with rfl | hsna
      · simp [newSourceNode] at hd'
      · exact hOk _ hsna d hd' c hc
    · simp only at hc
      rcases mem_modA _ _ _ _ c hc with hc' | ⟨cln, rfl, hcln⟩
      · rcases hdcn with rfl | hdcna
        · simp [newDcNode] at hc'
        · rcases hsn with rfl | hsna
          · simp [newSourceNode] at hdcna
          · exact hOk _ hsna _ hdcna c hc'
      · apply clusterRollupOk_seedHost
        rcases hcln with rfl | hclna
        · exact clusterRollupOk_new
        · rcases hdcn with rfl | hdcna
          · simp [newDcNode] at hclna
          · rcases hsn with rfl | hsna
            · simp [newSourceNode] at hdcna
            · exact hOk _ hsna _ hdcna _ hclna

/-- One VM-pass iteration preserves the hierarchy invariant. -/
theorem hierRollupOk_vmStep (metrics : List (String × HostMetrics)) (H : Hierarchy)
    (row : VmRow) (hOk : hierRollupOk H) : hierRollupOk (vmStep metrics H row) := by
  intro s hs d hd c hc
  simp only [vmStep] at hs
  rcases mem_modA _ _ _ _ s hs with hs' | ⟨sn, rfl, hsn⟩
  · exact hOk s hs' d hd c hc
  · simp only at hd
    rcases mem_modA _ _ _ _ d hd with hd' | ⟨dcn, rfl, hdcn⟩
    · rcases hsn with rfl | hsna
      · simp [newSourceNode] at hd'
      · exact hOk _ hsna d hd' c hc
    · simp only at hc
      rcases mem_modA _ _ _ _ c hc with hc' | ⟨cln, rfl, hcln⟩
      · rcases hdcn with rfl | hdcna
        · simp [newDcNode] at hc'
        · rcases hsn with rfl | hsna
          · simp [newSourceNode] at hdcna
          · exact hOk _ hsna _ hdcna c hc'
      · apply clusterRollupOk_vmUpdate
        rcases hcln with rfl | hclna
        · exact clusterRollupOk_new
        · rcases hdcn with rfl | hdcna
          · simp [newDcNode] at hclna
          · rcases hsn with rfl | hsna
            · simp [newSourceNode] at hdcna
            · exact hOk _ hsna _ hdcna _ hclna

/-- Folding the seed pass over any host-row list preserves the invariant. -/
theorem hierRollupOk_foldl_seed (metrics : List (String × HostMetrics))
    (rows : List HostsRow) (H : Hierarchy) (hOk : hierRollupOk H) :
    hierRollupOk (rows.foldl (seedStep metrics) H) := by
  induction rows generalizing H with
  | nil => exact hOk
  | cons r t ih => exact ih _ (hierRollupOk_seedStep metrics H r hOk)

/-- Folding the VM pass over any vInfo-row list preserves the invariant. -/
theorem hierRollupOk_foldl_vm (metrics : List (String × HostMetrics))
    (rows : List VmRow) (H : Hierarchy) (hOk : hierRollupOk H) :
    hierRollupOk (rows.foldl (vmStep metrics) H) := by
  induction rows generalizing H with
  | nil => exact hOk
  | cons r t ih => exact ih _ (hierRollupOk_vmStep metrics H r hOk)

/-- C7: after hierarchy construction, every cluster-level node's rollup
counters (total_vms, powered_on, total_vcpu, total_ram_gb) equal the sums
of the same counters over its host children. -/
theorem c7_cluster_rollups (vhost : List HostsRow) (vinfo : List VmRow)
    (host_metrics : List (String × HostMetrics)) :
    ∀ s ∈ build_hierarchy vhost vinfo host_metrics, ∀ d ∈ s.2.datacenters,
      ∀ c ∈ d.2.clusters, clusterRollupOk c.2 := by
  have base : hierRollupOk ([] : Hierarchy) := by
    intro s hs
    exact absurd hs (List.not_mem_nil s)
  exact hierRollupOk_foldl_vm host_metrics vinfo _
    (hierRollupOk_foldl_seed host_metrics vhost [] base)

/-- Witness for C7 on the fixture hierarchy: the cluster node reached
through the first source and datacenter satisfies the rollup invariant. -/
theorem c7_cluster_rollups_witness : clusterRollupOk c7C.2 :=
  c7_cluster_rollups [hostsRowFix] [vmApp] (get_host_metrics [hostsRowFix])
    c7S (List.get_mem _ _ _) c7D (List.get_mem _ _ _) c7C (List.get_mem _ _ _)

/-- A name in the poweredOn name set belongs to a poweredOn record. -/
theorem mem_poweredOnNames (vinfo : List VmRow) (n : String)
    (h : n ∈ poweredOnNames vinfo) :
    ∃ v ∈ vinfo, v.VM = n ∧ v.Powerstate = "poweredOn" := by
  unfold poweredOnNames at h
  obtain ⟨v, hv, rfl⟩ := List.mem_map.mp h
  have hm := List.mem_filter.mp hv
  exact ⟨v, hm.1, rfl, by simpa using hm.2⟩

/-- Every MEMORY_BALLOON finding targets the name of a poweredOn record. -/
theorem balloonFindings_target (vinfo : List VmRow) (vmemory : Table VMemRow) :
    ∀ f ∈ balloonFindings vinfo vmemory,
      ∃ v ∈ vinfo, v.VM = f.vm ∧ v.Powerstate = "poweredOn" := by
  intro f hf
  unfold balloonFindings at hf
  split at hf
  · cases hf
  · split at hf
    · obtain ⟨r, _, hsome⟩ := List.mem_filterMap.mp hf
      split at hsome
      · rename_i hcont
        obtain rfl := Option.some.inj hsome
        exact mem_poweredOnNames vinfo r.VM (by simpa using hcont)
      · cases hsome
    · cases hf

/-- Every MEMORY_SWAP finding targets the name of a poweredOn record. -/
theorem swapFindings_target (vinfo : List VmRow) (vmemory : Table VMemRow) :
    ∀ f ∈ swapFindings vinfo vmemory,
      ∃ v ∈ vinfo, v.VM = f.vm ∧ v.Powerstate = "poweredOn" := by
  intro f hf
  unfold swapFindings at hf
  split at hf
  · cases hf
  · split at hf
    · obtain ⟨r, _, hsome⟩ := List.mem_filterMap.mp hf
      split at hsome
      · rename_i hcont
        obtain rfl := Option.some.inj hsome
        exact mem_poweredOnNames vinfo r.VM (by simpa using hcont)
      · cases hsome
    · cases hf

/-- Every VM_TOOLS finding targets the name of a poweredOn record. -/
theorem toolsFindings_target (vinfo : List VmRow) (vtools : Table VToolsRow) :
    ∀ f ∈ toolsFindings vinfo vtools,
      ∃ v ∈ vinfo, v.VM = f.vm ∧ v.Powerstate = "poweredOn" := by
  intro f hf
  unfold toolsFindings at hf
  split at hf
  · cases hf
  · split at hf
    · obtain ⟨r, _, hsome⟩ := List.mem_filterMap.mp hf
      split at hsome
      · rename_i hcont
        obtain rfl := Option.some.inj hsome
        exact mem_poweredOnNames vinfo r.VM (by simpa using hcont)
      · cases hsome
    · cases hf

/-- A merged row carrying a vInfo record matches it by VM name. -/
theorem mergeVinfo_some (vcpu : List VCpuRow) (vinfo : List VmRow) (c : VCpuRow)
    (v : VmRow) (h : (c, some v) ∈ mergeVinfo vcpu vinfo) :
    v ∈ vinfo ∧ v.VM = c.VM := by
  unfold mergeVinfo at h
  obtain ⟨c', _, hmem⟩ := List.mem_flatMap.mp h
  cases hfil : vinfo.filter (fun v' => v'.VM == c'.VM) with
  | nil =>
    rw [hfil] at hmem
    simp at hmem
  | cons x xs =>
    rw [hfil] at hmem
    obtain ⟨v', hv', heq⟩ := List.mem_map.mp hmem
    have hc : c' = c := congrArg Prod.fst heq
    have hv : v' = v := Option.some.inj (congrArg Prod.snd heq)
    rw [← hfil] at hv'
    have hm := List.mem_filter.mp hv'
    subst hv
    subst hc
    exact ⟨hm.1, by simpa using hm.2⟩

/-- A finding emitted by the per-row CPU check body targets the row's VM
name. -/
theorem cpuUnderutilOne_vm (cfg : RsConfig) (hinfo : List (String × HostCpuInfo))
    (hasMax : Bool) (cv : VCpuRow × Option VmRow) (f : Finding)
    (h : cpuUnderutilOne cfg hinfo hasMax cv = some f) : f.vm = cv.1.VM := by
  unfold cpuUnderutilOne at h
  split at h
  · cases h
  · split at h
    · split at h
      · cases Option.some.inj h
        rfl
      · cases h
    · cases h

/-- Every CPU_UNDERUTILIZED finding targets the name of a poweredOn
record (the merge gate keeps only rows joined to a poweredOn vInfo row). -/
theorem cpuUnderutilFindings_target (cfg : RsConfig) (vinfo : List VmRow)
    (vcpu : Table VCpuRow) (vhost : List AppHostRow) :
    ∀ f ∈ cpuUnderutilFindings cfg vinfo vcpu vhost,
      ∃ v ∈ vinfo, v.VM = f.vm ∧ v.Powerstate = "poweredOn" := by
  intro f hf
  unfold cpuUnderutilFindings at hf
  split at hf
  · cases hf
  · obtain ⟨cv, hcv, hsome⟩ := List.mem_filterMap.mp hf
    have hfil := List.mem_filter.mp hcv
    obtain ⟨hpow, _⟩ := (Bool.and_eq_true _ _).mp hfil.2
    have hvm := cpuUnderutilOne_vm cfg (host_cpu_info vhost) (vcpu.cols.contains "Max")
      cv f hsome
    cases hv2 : cv.2 with
    | none => rw [hv2] at hpow; cases hpow
    | some v =>
      rw [hv2] at hpow
      have hon : v.Powerstate = "poweredOn" := by simpa using hpow
      obtain ⟨c, c2⟩ := cv
      cases hv2
      obtain ⟨hvin, hvvm⟩ := mergeVinfo_some vcpu.rows vinfo c v hfil.1
      exact ⟨v, hvin, by rw [hvvm, ← hvm], hon⟩

/-- C2: a VM record that is not poweredOn (more precisely, whose name no
poweredOn record carries — VM identity inside findings is the bare name)
is never the target of a MEMORY_BALLOON, MEMORY_SWAP, VM_TOOLS or
CPU_UNDERUTILIZED finding: each of those checks is gated on the target
name belonging to a poweredOn record. -/
theorem c2_powered_off_not_targeted (cfg : RsConfig) (vinfo : List VmRow)
    (vmemory : Table VMemRow) (vtools : Table VToolsRow) (vcpu : Table VCpuRow)
    (vhost : List AppHostRow) (rvm : VmRow) (hr : rvm ∈ vinfo)
    (hoff : ∀ v ∈ vinfo, v.VM = rvm.VM → v.Powerstate ≠ "poweredOn") :
    ∀ f ∈ balloonFindings vinfo vmemory ++ swapFindings vinfo vmemory ++
        toolsFindings vinfo vtools ++ cpuUnderutilFindings cfg vinfo vcpu vhost,
      f.vm ≠ rvm.VM := by
  have hrr := hr
  clear hrr
  intro f hf heq
  have htarget : ∃ v ∈ vinfo, v.VM = f.vm ∧ v.Powerstate = "poweredOn" := by
    rcases List.mem_append.mp hf with hf3 | hcpu
    · rcases List.mem_append.mp hf3 with hf2 | htool
      · rcases List.mem_append.mp hf2 with hball | hswap
        · exact balloonFindings_target vinfo vmemory f hball
        · exact swapFindings_target vinfo vmemory f hswap
      · exact toolsFindings_target vinfo vtools f htool
    · exact cpuUnderutilFindings_target cfg vinfo vcpu vhost f hcpu
  obtain ⟨v, hvin, hvvm, hvon⟩ := htarget
  exact hoff v hvin (by rw [hvvm, heq]) hvon

/-- Witness for C2: with `db01` powered off (and no poweredOn namesake),
balloon/swap activity, a bad tools status and low CPU usage reported for
`db01` produce no finding targeting it — though `app`'s balloon row does
produce a finding, so the checked list is not empty. -/
theorem c2_powered_off_not_targeted_witness :
    (balloonFindings [vmApp, vmOff] memTableFix ++
        swapFindings [vmApp, vmOff] memTableFix ++
        toolsFindings [vmApp, vmOff] toolsTableFix ++
        cpuUnderutilFindings cfgFix [vmApp, vmOff] cpuTableFix appHostFix).all
      (fun f => f.vm != vmOff.VM) = true := by
  have h := c2_powered_off_not_targeted cfgFix [vmApp, vmOff] memTableFix toolsTableFix
    cpuTableFix appHostFix vmOff (by decide) (by decide)
  exact List.all_eq_true.mpr (fun f hf => by simpa using h f hf)

/-- Filtering after an ordered insert: when all elements selected by `p`
are mutually `r`-comparable, the inserted element lands in front of every
selected element of the tail, so the filtered result is the filtered tail
with `a` consed on when selected. -/
theorem filter_orderedInsert {α : Type} (r : α → α → Prop) [DecidableRel r] (p : α → Bool)
    (htied : ∀ x y, p x = true → p y = true → r x y) (a : α) (l : List α) :
    (List.orderedInsert r a l).filter p =
      if p a then a :: l.filter p else l.filter p := by
  induction l with
  | nil =>
    simp only [List.orderedInsert, List.filter]
    cases p a <;> simp
  | cons b t ih =>
    simp only [List.orderedInsert]
    split
    · rw [List.filter_cons]
    · rename_i hnr
      rw [List.filter_cons, List.filter_cons]
      cases hb : p b with
      | true =>
        have hna : p a = false := by
          cases ha : p a
          · rfl
          · exact absurd (htied a b ha hb) hnr
        simp [ih, hna]
      | false =>
        cases ha : p a <;> simp [ih, ha]

/-- Stability of insertion sort, phrased through filters: the subsequence
of elements with any fixed sort key is unchanged by the sort. -/
theorem filter_insertionSort {α : Type} (r : α → α → Prop) [DecidableRel r] (p : α → Bool)
    (htied : ∀ x y, p x = true → p y = true → r x y) (l : List α) :
    (List.insertionSort r l).filter p = l.filter p := by
  induction l with
  | nil => rfl
  | cons a t ih =>
    simp only [List.insertionSort]
    rw [filter_orderedInsert r p htied a _, List.filter_cons]
    cases ha : p a <;> simp [ih, ha]

/-- C3: in the ranked output, severity ranks (CRITICAL=0, HIGH=1,
MEDIUM=2, LOW=3) are nondecreasing, potential savings are nonincreasing
within a severity rank, and the sort is stable: the subsequence of
findings with any fixed (rank, savings) key equals the corresponding
subsequence of the filtered input, so ties keep the catalog's emission
order. -/
theorem c3_ranking_order_and_stability (recs : List Finding) :
    List.Pairwise (fun a b =>
      severityRank a.severity ≤ severityRank b.severity ∧
      (severityRank a.severity = severityRank b.severity →
        b.potential_savings ≤ a.potential_savings)) (rankedOutput recs) ∧
    ∀ rk : ℕ, ∀ sv : ℚ,
      (rankedOutput recs).filter
          (fun f => severityRank f.severity == rk && f.potential_savings == sv) =
        (recs.filter keepFinding).filter
          (fun f => severityRank f.severity == rk && f.potential_savings == sv) := by
  constructor
  · have hs := List.sorted_insertionSort rankLE (recs.filter keepFinding)
    refine hs.imp ?_
    intro a b hab
    rcases hab with h | ⟨e, s⟩
    · exact ⟨le_of_lt h, fun he => absurd (he ▸ h) (lt_irrefl _)⟩
    · exact ⟨le_of_eq e, fun _ => s⟩
  · intro rk sv
    apply filter_insertionSort
    intro x y hx hy
    simp only [Bool.and_eq_true, beq_iff_eq] at hx hy
    exact Or.inr ⟨hx.1.trans hy.1.symm, le_of_eq (hy.2.trans hx.2.symm)⟩

/-- Witness for C3 on a two-finding fixture (a MEDIUM finding with
positive savings and a HIGH compliance finding). -/
theorem c3_ranking_order_and_stability_witness :
    List.Pairwise (fun a b =>
      severityRank a.severity ≤ severityRank b.severity ∧
      (severityRank a.severity = severityRank b.severity →
        b.potential_savings ≤ a.potential_savings)) (rankedOutput [findA, findB]) ∧
    ∀ rk : ℕ, ∀ sv : ℚ,
      (rankedOutput [findA, findB]).filter
          (fun f => severityRank f.severity == rk && f.potential_savings == sv) =
        ([findA, findB].filter keepFinding).filter
          (fun f => severityRank f.severity == rk && f.potential_savings == sv) :=
  c3_ranking_order_and_stability [findA, findB]

/-- Every DATASTORE_LOW_SPACE finding targets the name of a datastore row
of the input table. -/
theorem datastoreLowSpaceFindings_target (cfg : RsConfig) (vdatastore : Table DsRow) :
    ∀ f ∈ datastoreLowSpaceFindings cfg vdatastore,
      ∃ d ∈ vdatastore.rows, f.vm = d.Name := by
  intro f hf
  unfold datastoreLowSpaceFindings at hf
  split at hf
  · cases hf
  · split at hf
    · obtain ⟨ds, hds, hsome⟩ := List.mem_filterMap.mp hf
      refine ⟨ds, hds, ?_⟩
      split at hsome
      · dsimp only at hsome
        split at hsome
        · cases Option.some.inj hsome; rfl
        · split at hsome
          · cases Option.some.inj hsome; rfl
          · split at hsome
            · cases Option.some.inj hsome; rfl
            · cases hsome
      · cases hsome
    · cases hf

/-- Every ZOMBIE_DISK finding carries the constant placeholder target
string. -/
theorem get_zombie_vms_target (vhealth : Option (List HealthRow)) :
    ∀ f ∈ get_zombie_vms vhealth, f.vm = "Orphaned Disk" := by
  intro f hf
  unfold get_zombie_vms at hf
  cases vhealth with
  | none => cases hf
  | some rows =>
    obtain ⟨r, _, rfl⟩ := List.mem_map.mp hf
    rfl

/-- C8 counterexample: a vHealth row reporting a zombie disk produces a
ZOMBIE_DISK finding whose target, the placeholder `Orphaned Disk`, matches
no VM record and no host record of the inventory — a dangling target
identifier. -/
theorem c8_counterexample :
    ∃ f ∈ get_zombie_vms (some [healthRowFix]),
      (∀ v ∈ [vmApp, vmOff], f.vm ≠ v.VM) ∧ (∀ h ∈ [hostsRowFix], f.vm ≠ h.Host) := by
  decide

/-- C8 amended: findings emitted by the powered-on-gated VM checks
(MEMORY_BALLOON, MEMORY_SWAP, VM_TOOLS, CPU_UNDERUTILIZED) target a VM
name present in the VM table; DATASTORE_LOW_SPACE findings target a
datastore row of the datastore table; but ZOMBIE_DISK findings carry the
constant placeholder target `Orphaned Disk`, which refers to no VM or
host record. -/
theorem c8_amended (cfg : RsConfig) (vinfo : List VmRow) (vmemory : Table VMemRow)
    (vtools : Table VToolsRow) (vcpu : Table VCpuRow) (vhost : List AppHostRow)
    (vdatastore : Table DsRow) (vhealth : Option (List HealthRow)) :
    (∀ f ∈ balloonFindings vinfo vmemory ++ swapFindings vinfo vmemory ++
        toolsFindings vinfo vtools ++ cpuUnderutilFindings cfg vinfo vcpu vhost,
      ∃ v ∈ vinfo, v.VM = f.vm) ∧
    (∀ f ∈ datastoreLowSpaceFindings cfg vdatastore, ∃ d ∈ vdatastore.rows, f.vm = d.Name) ∧
    (∀ f ∈ get_zombie_vms vhealth, f.vm = "Orphaned Disk") := by
  refine ⟨?_, datastoreLowSpaceFindings_target cfg vdatastore, get_zombie_vms_target vhealth⟩
  intro f hf
  have : ∃ v ∈ vinfo, v.VM = f.vm ∧ v.Powerstate = "poweredOn" := by
    rcases List.mem_append.mp hf with hf3 | hcpu
    · rcases List.mem_append.mp hf3 with hf2 | htool
      · rcases List.mem_append.mp hf2 with hball | hswap
        · exact balloonFindings_target vinfo vmemory f hball
        · exact swapFindings_target vinfo vmemory f hswap
      · exact toolsFindings_target vinfo vtools f htool
    · exact cpuUnderutilFindings_target cfg vinfo vcpu vhost f hcpu
  obtain ⟨v, hvin, hvvm, _⟩ := this
  exact ⟨v, hvin, hvvm⟩

/-- Witness for the amended C8: the 8%-free datastore finding targets the
`ds1` row, and the zombie finding carries the placeholder target. -/
theorem c8_amended_witness :
    (∃ d ∈ dsTableFix.rows, dsLowFind.vm = d.Name) ∧ zombieFind.vm = "Orphaned Disk" :=
  ⟨(c8_amended cfgFix [vmApp, vmOff] memTableFix toolsTableFix cpuTableFix appHostFix
      dsTableFix (some [healthRowFix])).2.1 dsLowFind (by with_unfolding_all decide),
   (c8_amended cfgFix [vmApp, vmOff] memTableFix toolsTableFix cpuTableFix appHostFix
      dsTableFix (some [healthRowFix])).2.2 zombieFind (by decide)⟩

/-- C9: reading a logical table that does not exist yet returns the empty
DataFrame rather than an error, and each embedded modular check whose
required table or columns are absent returns an empty finding list without
propagating a failure (`check_cpu_underutilization` on an empty sheet or a
sheet without the `Overall` column, `check_vm_tools` on an empty sheet or
one without a Status/Tools column, `check_eol_os` without the OS column). -/
theorem c9_missing_table_and_columns (db : List (String × PTable)) (sheet : String)
    (vcpu : PTable) (vhost_info : List (String × ℚ)) (vtools vinfoT : PTable) :
    (getA db sheet = none → get_combined_data db sheet = emptyPTable) ∧
    (vcpu.rows = [] ∨ vcpu.cols.contains "Overall" = false →
      check_cpu_underutilization vcpu vhost_info = []) ∧
    (vtools.rows = [] ∨
        vtools.cols.find? (fun c => pyContains c "Status" || pyContains c "Tools") = none →
      check_vm_tools vtools vinfoT = []) ∧
    (vinfoT.cols.contains "OS according to the configuration file" = false →
      check_eol_os vinfoT = []) := by
  refine ⟨?_, ?_, ?_, ?_⟩
  · intro h
    unfold get_combined_data
    rw [h]
  · intro h
    unfold check_cpu_underutilization
    rcases h with h | h
    · rw [if_pos (by simp [h])]
    · rw [if_pos (by simp; exact Or.inr (by simpa using h))]
  · intro h
    unfold check_vm_tools
    rcases h with h | h
    · rw [if_pos (by simp [h])]
    · by_cases hrows : vtools.rows.isEmpty = true
      · rw [if_pos hrows]
      · rw [if_neg hrows, h]
  · intro h
    unfold check_eol_os
    rw [if_pos (by simp; exact (by simpa using h))]

/-- Witness for C9: an empty database and empty sheets yield the empty
DataFrame and empty finding lists. -/
theorem c9_missing_table_and_columns_witness :
    get_combined_data [] "vSnapshot" = emptyPTable ∧
    check_cpu_underutilization emptyPTable [] = [] ∧
    check_vm_tools emptyPTable emptyPTable = [] ∧
    check_eol_os emptyPTable = [] :=
  ⟨(c9_missing_table_and_columns [] "vSnapshot" emptyPTable [] emptyPTable emptyPTable).1 rfl,
   (c9_missing_table_and_columns [] "vSnapshot" emptyPTable [] emptyPTable emptyPTable).2.1
     (Or.inl rfl),
   (c9_missing_table_and_columns [] "vSnapshot" emptyPTable [] emptyPTable emptyPTable).2.2.1
     (Or.inl rfl),
   (c9_missing_table_and_columns [] "vSnapshot" emptyPTable [] emptyPTable emptyPTable).2.2.2
     (by decide)⟩
